import Mathlib

/-!
Verification development for the query-time ranking pipeline of the
smart-search-document repository (backend search route, vector store).

Strings from the TypeScript source are modelled as `List Char`.  JavaScript
`toLowerCase`/`toUpperCase` and the regex classes `\w`/`\s` are modelled on
the ASCII range, which covers every character the source's patterns and the
corpora of interest use.  Floating-point numbers are modelled as rationals
(`ℚ`), except for the square roots inside cosine similarity which are
modelled over the reals.
-/

set_option maxHeartbeats 4000000
set_option maxRecDepth 8000

/-- ASCII model of JavaScript `String.prototype.toLowerCase`, one character at
a time: the letters A-Z (code points 65-90) are shifted to a-z, everything
else is unchanged. -/
def jsToLower (c : Char) : Char :=
  if 65 ≤ c.toNat ∧ c.toNat ≤ 90 then Char.ofNat (c.toNat + 32) else c

/-- Model of the regex class `\w` (word character): ASCII letters, digits and
underscore. -/
def isWordChar (c : Char) : Bool :=
  (97 ≤ c.toNat && c.toNat ≤ 122) || (65 ≤ c.toNat && c.toNat ≤ 90) ||
  (48 ≤ c.toNat && c.toNat ≤ 57) || c.toNat == 95

/-- Model of the regex class `\s` (whitespace): space, tab, newline, carriage
return, vertical tab, form feed and non-breaking space. -/
def isSpaceChar (c : Char) : Bool :=
  c.toNat == 32 || c.toNat == 9 || c.toNat == 10 || c.toNat == 13 ||
  c.toNat == 11 || c.toNat == 12 || c.toNat == 160

/-- A character `c` with `c === c.toUpperCase() && c !== c.toLowerCase()` in
JavaScript, restricted to ASCII: the letters A-Z. -/
def isUpperAlpha (c : Char) : Bool :=
  65 ≤ c.toNat && c.toNat ≤ 90

/-- Model of the regex class `\d`. -/
def isDigitChar (c : Char) : Bool :=
  48 ≤ c.toNat && c.toNat ≤ 57

/-- One step of `text.replace(/[^\w\s]/g, ' ')`: a character that is neither a
word character nor whitespace becomes a space. -/
def replNonWord (c : Char) : Char :=
  if isWordChar c || isSpaceChar c then c else ' '

/-- Worker for `text.replace(/\s+/g, ' ')`: every maximal run of whitespace is
replaced by a single space.  The boolean records whether the previously
consumed character was whitespace. -/
def collapseAux : Bool → List Char → List Char
  | _, [] => []
  | prevSpace, c :: cs =>
    if isSpaceChar c then
      if prevSpace then collapseAux true cs else ' ' :: collapseAux true cs
    else
      c :: collapseAux false cs

/-- Model of `text.replace(/\s+/g, ' ')`. -/
def collapseWS (l : List Char) : List Char := collapseAux false l

/-- Model of `String.prototype.trim`: drop leading and trailing whitespace. -/
def trimWS (l : List Char) : List Char :=
  ((l.dropWhile isSpaceChar).reverse.dropWhile isSpaceChar).reverse

/-- Model of `String.prototype.toLowerCase` on a whole string. -/
def lowerStr (l : List Char) : List Char := l.map jsToLower

/-- Embedding of `normalizeTextForMatching` (search route, lines 14-20):
lower-case, replace `[^\w\s]` by a space, collapse whitespace runs to a
single space, and trim. -/
def normalizeTextForMatching (l : List Char) : List Char :=
  trimWS (collapseWS ((l.map jsToLower).map replNonWord))

theorem char_toNat_ofNat (n : Nat) (h : n < 55296) : (Char.ofNat n).toNat = n := by
  have hv : Nat.isValidChar n := Or.inl h
  simp only [Char.ofNat, hv, dite_true, Char.ofNatAux, Char.toNat]
  rfl

theorem toNat_jsToLower (c : Char) :
    (jsToLower c).toNat =
      if 65 ≤ c.toNat ∧ c.toNat ≤ 90 then c.toNat + 32 else c.toNat := by
  unfold jsToLower
  split
  case isTrue h => exact char_toNat_ofNat _ (by omega)
  case isFalse h => rfl

theorem jsToLower_idem (c : Char) : jsToLower (jsToLower c) = jsToLower c := by
  have h := toNat_jsToLower c
  nth_rewrite 1 [jsToLower]
  rw [if_neg]
  by_cases hc : 65 ≤ c.toNat ∧ c.toNat ≤ 90
  · rw [if_pos hc] at h
    omega
  · rw [if_neg hc] at h
    omega

/-- Characters that both lower-casing and punctuation replacement leave
unchanged. -/
def normedChar (c : Char) : Prop :=
  jsToLower c = c ∧ replNonWord c = c

theorem normedChar_space : normedChar ' ' := by
  constructor
  · unfold jsToLower
    rw [if_neg]
    decide
  · unfold replNonWord
    rw [if_pos]
    decide

theorem normedChar_of_image (d : Char) : normedChar (replNonWord (jsToLower d)) := by
  unfold replNonWord
  split
  case isTrue h =>
    exact ⟨jsToLower_idem d, by unfold replNonWord; rw [if_pos h]⟩
  case isFalse h => exact normedChar_space

theorem mem_collapseAux {c : Char} :
    ∀ (b : Bool) (l : List Char), c ∈ collapseAux b l → c = ' ' ∨ c ∈ l := by
  intro b l
  induction l generalizing b with
  | nil => intro h; simp [collapseAux] at h
  | cons x xs ih =>
    intro h
    simp only [collapseAux] at h
    split at h
    · split at h
      · rcases ih _ h with h' | h'
        · exact Or.inl h'
        · exact Or.inr (List.mem_cons_of_mem _ h')
      · rcases List.mem_cons.mp h with h' | h'
        · exact Or.inl h'
        · rcases ih _ h' with h'' | h''
          · exact Or.inl h''
          · exact Or.inr (List.mem_cons_of_mem _ h'')
    · rcases List.mem_cons.mp h with h' | h'
      · exact Or.inr (h' ▸ List.mem_cons_self x xs)
      · rcases ih _ h' with h'' | h''
        · exact Or.inl h''
        · exact Or.inr (List.mem_cons_of_mem _ h'')

theorem space_mem_collapseAux {c : Char} :
    ∀ (b : Bool) (l : List Char), c ∈ collapseAux b l → isSpaceChar c = true → c = ' ' := by
  intro b l
  induction l generalizing b with
  | nil => intro h; simp [collapseAux] at h
  | cons x xs ih =>
    intro h hs
    simp only [collapseAux] at h
    split at h
    · split at h
      · exact ih _ h hs
      · rcases List.mem_cons.mp h with h' | h'
        · exact h'
        · exact ih _ h' hs
    case isFalse hx =>
      rcases List.mem_cons.mp h with h' | h'
      · rw [h'] at hs; rw [hs] at hx; simp at hx
      · exact ih _ h' hs

/-- No two adjacent whitespace characters. -/
def noTwoSpaces (l : List Char) : Prop :=
  List.Chain' (fun a b => isSpaceChar a = false ∨ isSpaceChar b = false) l

theorem head_collapseAux_true :
    ∀ (l : List Char) (c : Char), (collapseAux true l).head? = some c →
      isSpaceChar c = false := by
  intro l
  induction l with
  | nil => intro c h; simp [collapseAux] at h
  | cons x xs ih =>
    intro c h
    simp only [collapseAux] at h
    split at h
    case isTrue hx => exact ih c h
    case isFalse hx =>
      simp only [List.head?_cons, Option.some.injEq] at h
      rw [← h]
      simp only [Bool.not_eq_true] at hx
      exact hx

theorem noTwoSpaces_collapseAux : ∀ (b : Bool) (l : List Char), noTwoSpaces (collapseAux b l) := by
  intro b l
  induction l generalizing b with
  | nil => simp [collapseAux, noTwoSpaces]
  | cons x xs ih =>
    simp only [collapseAux]
    split
    · split
      · exact ih true
      · refine List.chain'_cons'.mpr ⟨?_, ih true⟩
        intro y hy
        exact Or.inr (head_collapseAux_true xs y hy)
    case isFalse hx =>
      refine List.chain'_cons'.mpr ⟨?_, ih false⟩
      intro y hy
      simp only [Bool.not_eq_true] at hx
      exact Or.inl hx

theorem noTwoSpaces_dropWhile (p : Char → Bool) :
    ∀ (l : List Char), noTwoSpaces l → noTwoSpaces (l.dropWhile p) := by
  intro l
  induction l with
  | nil => intro h; simpa [List.dropWhile] using h
  | cons x xs ih =>
    intro h
    rw [List.dropWhile_cons]
    split
    · exact ih (List.Chain'.tail h)
    · exact h

theorem noTwoSpaces_reverse (l : List Char) (h : noTwoSpaces l) : noTwoSpaces l.reverse := by
  unfold noTwoSpaces at *
  rw [List.chain'_reverse]
  exact List.Chain'.imp (fun a b hab => Or.symm hab) h

theorem spaces_are_sp_of_sub {l m : List Char}
    (hsub : ∀ c ∈ l, c ∈ m)
    (hm : ∀ c ∈ m, isSpaceChar c = true → c = ' ') :
    ∀ c ∈ l, isSpaceChar c = true → c = ' ' :=
  fun c hc => hm c (hsub c hc)

theorem collapseAux_fix :
    ∀ (l : List Char),
      (∀ c ∈ l, isSpaceChar c = true → c = ' ') →
      noTwoSpaces l →
      ∀ (b : Bool), (b = true → ∀ c ∈ l.head?, isSpaceChar c = false) →
      collapseAux b l = l := by
  intro l
  induction l with
  | nil => intro _ _ b _; cases b <;> rfl
  | cons x xs ih =>
    intro hsp hch b hb
    simp only [collapseAux]
    split
    case isTrue hx =>
      have hb' : b = false := by
        cases b
        · rfl
        · have := hb rfl x (by simp)
          rw [hx] at this
          simp at this
      subst hb'
      rw [if_neg (by decide : ¬(false = true))]
      have hx' : x = ' ' := hsp x (by simp) hx
      have hxs : collapseAux true xs = xs := by
        refine ih (fun c hc => hsp c (List.mem_cons_of_mem _ hc)) (List.Chain'.tail hch) true ?_
        intro _ c hc
        rcases xs with _ | ⟨y, ys⟩
        · simp at hc
        · simp only [List.head?_cons, Option.mem_def, Option.some.injEq] at hc
          subst hc
          have := List.chain'_cons.mp hch
          rcases this.1 with h' | h'
          · rw [hx] at h'; simp at h'
          · exact h'
      rw [hx', hxs]
    case isFalse hx =>
      congr 1
      refine ih (fun c hc => hsp c (List.mem_cons_of_mem _ hc)) (List.Chain'.tail hch) false (by simp)

theorem dropWhile_head_not (p : Char → Bool) :
    ∀ (l : List Char) (c : Char), (l.dropWhile p).head? = some c → p c = false := by
  intro l
  induction l with
  | nil => intro c h; simp [List.dropWhile] at h
  | cons x xs ih =>
    intro c h
    rw [List.dropWhile_cons] at h
    split at h
    · exact ih c h
    case isFalse hx =>
      simp only [List.head?_cons, Option.some.injEq] at h
      rw [← h]
      simpa using hx

theorem dropWhile_eq_self_of_head (p : Char → Bool) (l : List Char)
    (h : ∀ c ∈ l.head?, p c = false) : l.dropWhile p = l := by
  cases l with
  | nil => rfl
  | cons x xs =>
    rw [List.dropWhile_cons, if_neg]
    have := h x (by simp)
    simp [this]

theorem trimWS_sub : ∀ (l : List Char), ∀ c ∈ trimWS l, c ∈ l := by
  intro l c hc
  unfold trimWS at hc
  rw [List.mem_reverse] at hc
  have h1 := List.dropWhile_sublist (l := (l.dropWhile isSpaceChar).reverse) (p := isSpaceChar)
  have hc2 := h1.mem hc
  rw [List.mem_reverse] at hc2
  exact (List.dropWhile_sublist (l := l) (p := isSpaceChar)).mem hc2

theorem trimWS_noTwoSpaces (l : List Char) (h : noTwoSpaces l) : noTwoSpaces (trimWS l) := by
  unfold trimWS
  exact noTwoSpaces_reverse _ (noTwoSpaces_dropWhile _ _ (noTwoSpaces_reverse _ (noTwoSpaces_dropWhile _ _ h)))

theorem trimWS_head_not (l : List Char) :
    ∀ c ∈ (trimWS l).head?, isSpaceChar c = false := by
  intro c hc
  unfold trimWS at hc
  set A := l.dropWhile isSpaceChar with hA
  have hpre : (A.reverse.dropWhile isSpaceChar).reverse <+: A := by
    have h1 : A.reverse.dropWhile isSpaceChar <:+ A.reverse := List.dropWhile_suffix _
    have h2 := List.reverse_prefix.mpr h1
    simpa using h2
  rcases hpre with ⟨t, ht⟩
  rcases hmain : (A.reverse.dropWhile isSpaceChar).reverse with _ | ⟨y, ys⟩
  · rw [hmain] at hc; simp at hc
  · rw [hmain] at hc
    simp only [List.head?_cons, Option.mem_def, Option.some.injEq] at hc
    subst hc
    rw [hmain] at ht
    have hhd : A.head? = some y := by rw [← ht]; simp
    rw [hA] at hhd
    exact dropWhile_head_not isSpaceChar l y hhd

theorem trimWS_getLast_not (l : List Char) :
    ∀ c ∈ (trimWS l).getLast?, isSpaceChar c = false := by
  intro c hc
  unfold trimWS at hc
  rw [← List.head?_reverse, List.reverse_reverse] at hc
  exact dropWhile_head_not isSpaceChar _ c hc

theorem trimWS_fix (l : List Char)
    (hh : ∀ c ∈ l.head?, isSpaceChar c = false)
    (hl : ∀ c ∈ l.getLast?, isSpaceChar c = false) : trimWS l = l := by
  unfold trimWS
  rw [dropWhile_eq_self_of_head _ _ hh]
  rw [dropWhile_eq_self_of_head _ _ (by simpa [List.head?_reverse] using hl)]
  exact List.reverse_reverse l

theorem map_id_of_forall (f : Char → Char) :
    ∀ (l : List Char), (∀ c ∈ l, f c = c) → l.map f = l := by
  intro l
  induction l with
  | nil => intro _; rfl
  | cons x xs ih =>
    intro h
    simp only [List.map_cons]
    rw [h x (by simp), ih (fun c hc => h c (List.mem_cons_of_mem _ hc))]

theorem normalize_chars (l : List Char) :
    ∀ c ∈ normalizeTextForMatching l,
      normedChar c ∧ (isSpaceChar c = true → c = ' ') := by
  intro c hc
  unfold normalizeTextForMatching at hc
  have hc1 : c ∈ collapseWS ((l.map jsToLower).map replNonWord) := trimWS_sub _ c hc
  have hsp : isSpaceChar c = true → c = ' ' := space_mem_collapseAux false _ hc1
  refine ⟨?_, hsp⟩
  rcases mem_collapseAux false _ hc1 with h' | h'
  · rw [h']; exact normedChar_space
  · simp only [List.map_map, List.mem_map] at h'
    rcases h' with ⟨d, _, hd⟩
    rw [← hd]
    exact normedChar_of_image d

/-- C8: text normalization is idempotent.  For every string `x`,
normalize(normalize(x)) equals normalize(x), where normalize is the embedding
of `normalizeTextForMatching` (lower-case, punctuation to spaces, whitespace
runs collapsed to one space, trimmed). -/
theorem normalizeTextForMatching_idem (l : List Char) :
    normalizeTextForMatching (normalizeTextForMatching l) = normalizeTextForMatching l := by
  set N := normalizeTextForMatching l with hN
  have hchars := normalize_chars l
  rw [← hN] at hchars
  have hmap1 : N.map jsToLower = N :=
    map_id_of_forall _ N (fun c hc => (hchars c hc).1.1)
  have hmap2 : N.map replNonWord = N :=
    map_id_of_forall _ N (fun c hc => (hchars c hc).1.2)
  have hnts : noTwoSpaces N := by
    rw [hN]
    unfold normalizeTextForMatching
    exact trimWS_noTwoSpaces _ (noTwoSpaces_collapseAux false _)
  have hcoll : collapseWS N = N := by
    unfold collapseWS
    refine collapseAux_fix N (fun c hc hs => (hchars c hc).2 hs) hnts false (by simp)
  have hhead : ∀ c ∈ N.head?, isSpaceChar c = false := by
    rw [hN]
    unfold normalizeTextForMatching
    exact trimWS_head_not _
  have hlast : ∀ c ∈ N.getLast?, isSpaceChar c = false := by
    rw [hN]
    unfold normalizeTextForMatching
    exact trimWS_getLast_not _
  calc normalizeTextForMatching N
      = trimWS (collapseWS ((N.map jsToLower).map replNonWord)) := rfl
    _ = trimWS (collapseWS N) := by rw [hmap1, hmap2]
    _ = trimWS N := by rw [hcoll]
    _ = N := trimWS_fix N hhead hlast

/-!
A small backtracking regular-expression engine covering exactly the constructs
used by the source's patterns: case-insensitive literals, character classes,
greedy bounded repetition of a character class, concatenation, alternation
(preferring the left branch, as JavaScript does), word boundaries, and an
end-of-input anchor.  Matching threads the previously consumed character so
that word boundaries can be decided.
-/

inductive RE where
  | eps
  | lit (s : List Char)
  | cls (p : Char → Bool)
  | rep (p : Char → Bool) (lo : Nat) (hi : Option Nat)
  | seq (a b : RE)
  | alt (a b : RE)
  | wb
  | eos

/-- A word boundary holds between the previous character and the start of the
remaining input when exactly one side is a word character. -/
def boundaryAt (prev : Option Char) (s : List Char) : Bool :=
  (match prev with | none => false | some c => isWordChar c) !=
  (match s with | [] => false | c :: _ => isWordChar c)

/-- Consume a case-insensitive literal (pattern stored lower-case). -/
def litRun : List Char → Option Char → List Char → Option (Option Char × List Char)
  | [], prev, s => some (prev, s)
  | _ :: _, _, [] => none
  | p :: ps, _, c :: cs => if jsToLower c = p then litRun ps (some c) cs else none

/-- All states reachable by consuming 0, 1, 2, ... characters of class `p`,
in increasing order of consumed length. -/
def clsStates (p : Char → Bool) : Option Char → List Char → List (Option Char × List Char)
  | prev, [] => [(prev, [])]
  | prev, c :: cs => (prev, c :: cs) :: (if p c then clsStates p (some c) cs else [])

/-- Backtracking matcher in continuation-passing style.  Greedy repetitions
try the longest consumption first; alternation tries the left branch first;
these are the JavaScript preference rules. -/
def reRun : RE → Option Char → List Char → (Option Char → List Char → Option (List Char)) → Option (List Char)
  | .eps, prev, s, k => k prev s
  | .lit w, prev, s, k =>
    match litRun w prev s with
    | some pr => k pr.1 pr.2
    | none => none
  | .cls p, _, s, k =>
    match s with
    | [] => none
    | c :: cs => if p c then k (some c) cs else none
  | .rep p lo hi, prev, s, k =>
    let sts := clsStates p prev s
    let sts := match hi with | some h => sts.take (h + 1) | none => sts
    sts.enum.reverse.findSome? (fun ic => if lo ≤ ic.1 then k ic.2.1 ic.2.2 else none)
  | .seq a b, prev, s, k => reRun a prev s (fun pv rest => reRun b pv rest k)
  | .alt a b, prev, s, k =>
    match reRun a prev s k with
    | some r => some r
    | none => reRun b prev s k
  | .wb, prev, s, k => if boundaryAt prev s then k prev s else none
  | .eos, prev, s, k => match s with | [] => k prev [] | _ => none

/-- Try to match `r` at the current position; returns the rest of the input
after the match. -/
def reMatchAt (r : RE) (prev : Option Char) (s : List Char) : Option (List Char) :=
  reRun r prev s (fun _ rest => some rest)

/-- Leftmost match: scan positions left to right; returns (index, length). -/
def reSearchAux (r : RE) : Option Char → List Char → Nat → Option (Nat × Nat)
  | prev, s, i =>
    match reMatchAt r prev s with
    | some rest => some (i, s.length - rest.length)
    | none =>
      match s with
      | [] => none
      | c :: cs => reSearchAux r (some c) cs (i + 1)

def reSearch (r : RE) (s : List Char) : Option (Nat × Nat) :=
  reSearchAux r none s 0

/-- Model of `regex.test(s)` for an unanchored pattern. -/
def reTest (r : RE) (s : List Char) : Bool :=
  (reSearch r s).isSome

/-- Model of `regex.test(s)` for a `^`-anchored pattern (matched only at the
start of the input). -/
def reTestAt0 (r : RE) (s : List Char) : Bool :=
  (reMatchAt r none s).isSome

/-- The text of the leftmost match. -/
def reMatchedText (r : RE) (s : List Char) : Option (List Char) :=
  (reSearch r s).map (fun il => (s.drop il.1).take il.2)

def reSeqList : List RE → RE
  | [] => .eps
  | [r] => r
  | r :: rs => .seq r (reSeqList rs)

def reAltList : List RE → RE
  | [] => .cls (fun _ => false)
  | [r] => r
  | r :: rs => .alt r (reAltList rs)

/-- Case-insensitive literal from a string. -/
def rlit (s : String) : RE := .lit (s.toList.map jsToLower)

/-- The pattern `\s+`. -/
def rws : RE := .rep isSpaceChar 1 none

/-- The pattern `\s*`. -/
def rwsStar : RE := .rep isSpaceChar 0 none

/-- The pattern `.{lo,hi}` (any character except newline). -/
def rdot (lo hi : Nat) : RE := .rep (fun c => c != '\n') lo (some hi)

/-- The pattern `.*`. -/
def rdotStar : RE := .rep (fun c => c != '\n') 0 none

/-- The pattern `\bword\b`. -/
def rword (s : String) : RE := .seq .wb (.seq (rlit s) .wb)

/-- An optional literal `(s)?`, greedy. -/
def ropt (s : String) : RE := .alt (rlit s) .eps

/-- Words joined by `\s+`, wrapped in word boundaries:
`\bw1\s+w2\s+...\s+wn\b`. -/
def rphrase (ws : List String) : RE :=
  .seq .wb (.seq (reSeqList (List.intersperse rws (ws.map rlit))) .wb)

/-- Split a list at every occurrence of a separator character (like
`String.prototype.split` with a single-character separator). -/
def splitOnCharAux (sep : Char) : List Char → List Char → List (List Char)
  | acc, [] => [acc.reverse]
  | acc, c :: cs =>
    if c = sep then acc.reverse :: splitOnCharAux sep [] cs
    else splitOnCharAux sep (c :: acc) cs

def splitOnChar (sep : Char) (l : List Char) : List (List Char) :=
  splitOnCharAux sep [] l

/-- Split on runs of whitespace (`split(/\s+/)`), keeping only the non-empty
segments; every use in the source filters empty segments or applies it to
trimmed input. -/
def splitWSAux : List Char → List Char → List (List Char)
  | acc, [] => if acc.isEmpty then [] else [acc.reverse]
  | acc, c :: cs =>
    if isSpaceChar c then
      if acc.isEmpty then splitWSAux [] cs else acc.reverse :: splitWSAux [] cs
    else splitWSAux (c :: acc) cs

def splitWS (l : List Char) : List (List Char) :=
  splitWSAux [] l

/-- Case-sensitive substring containment (JavaScript `includes`). -/
def containsSub (needle hay : List Char) : Bool :=
  (hay.tails.filter (fun t => needle.isPrefixOf t)).length ≠ 0

/-- Index of the first occurrence of a substring (JavaScript `indexOf`),
`none` when absent. -/
def indexOfSubAux (needle : List Char) : List Char → Nat → Option Nat
  | s, i =>
    if needle.isPrefixOf s then some i
    else
      match s with
      | [] => none
      | _ :: cs => indexOfSubAux needle cs (i + 1)

def indexOfSub (needle hay : List Char) : Option Nat :=
  indexOfSubAux needle hay 0

/-!  Query intent detectors (search route).  -/

/-- Embedding of `comparisonKeywordsEarly` (lines 516-522):
`\bdifference\b`, `\bvs\.?\b`, `\bversus\b`, `\bcompare\b`, `\bcomparison\b`,
all case-insensitive. -/
def comparisonKeywordsEarly : List RE :=
  [rword "difference",
   .seq .wb (.seq (rlit "vs") (.seq (ropt ".") .wb)),
   rword "versus",
   rword "compare",
   rword "comparison"]

/-- Embedding of `isComparisonQueryEarly` (line 524). -/
def isComparisonQueryEarly (q : List Char) : Bool :=
  comparisonKeywordsEarly.any (fun r => reTest r q)

/-- The stop-word set of `extractEntityEarly` (line 528). -/
def stopWordsEarly : List (List Char) :=
  ["what", "how", "does", "do", "is", "are", "the", "a", "an", "and", "or",
   "but", "in", "on", "at", "to", "for", "of", "with", "by", "from", "as",
   "use", "uses", "using", "used", "data", "ai", "artificial", "intelligence",
   "machine", "learning", "difference", "between", "compare", "comparison",
   "vs", "versus", "different", "platforms", "agentic"].map String.toList

/-- `word.replace(/[^\w]/g, '')`. -/
def cleanWordOf (w : List Char) : List Char := w.filter isWordChar

/-- First character is an upper-case letter (the JavaScript test
`c === c.toUpperCase() && c !== c.toLowerCase()`, ASCII model). -/
def headUpper (w : List Char) : Bool :=
  match w with
  | c :: _ => isUpperAlpha c
  | [] => false

/-- Embedding of `extractEntityEarly` (lines 527-540): first whitespace token
which, stripped of non-word characters, has length > 2, starts with an
upper-case letter and is not a stop word. -/
def extractEntityEarly (q : List Char) : Option (List Char) :=
  (splitWS q).findSome? (fun w =>
    let cw := cleanWordOf w
    if decide (2 < cw.length) && headUpper cw && !(stopWordsEarly.contains (lowerStr cw))
    then some cw else none)

/-- The anchored pattern `^what\s+is\b`. -/
def reWhatIsAnchor : RE :=
  .seq (rlit "what") (.seq rws (.seq (rlit "is") .wb))

/-- The anchored pattern `^define\b`. -/
def reDefineAnchor : RE := .seq (rlit "define") .wb

/-- Embedding of `isDefinitionQueryEarly` (line 545):
`/^what\s+is\b/i.test(query.trim()) || /^define\b/i.test(query.trim())`. -/
def isDefinitionQueryEarly (q : List Char) : Bool :=
  reTestAt0 reWhatIsAnchor (trimWS q) || reTestAt0 reDefineAnchor (trimWS q)

/-- Embedding of the `isDefinition` test of `detectDefinitionQuery`
(lines 1013-1020): the same anchored patterns applied to the lower-cased
trimmed query and to the lower-cased trimmed normalized query. -/
def isDefinitionDetect (q : List Char) : Bool :=
  reTestAt0 reWhatIsAnchor (trimWS (lowerStr q)) ||
  reTestAt0 reDefineAnchor (trimWS (lowerStr q)) ||
  reTestAt0 reWhatIsAnchor (trimWS (lowerStr (normalizeTextForMatching q))) ||
  reTestAt0 reDefineAnchor (trimWS (lowerStr (normalizeTextForMatching q)))

/-- Embedding of `dataUsagePatterns` (lines 2198-2207). -/
def dataUsagePatterns : List RE :=
  [rphrase ["what", "data"],
   rphrase ["data", "does"],
   .seq .wb (.seq (rlit "use") (.seq (ropt "s") (.seq rws (.seq (rlit "data") .wb)))),
   rphrase ["data", "used", "by"],
   rphrase ["what", "kind", "of", "data"],
   rphrase ["type", "of", "data"],
   .seq .wb (.seq (rlit "data") (.seq rws (.seq (rlit "source") (.seq (ropt "s") .wb)))),
   .seq .wb (.seq (rlit "data") (.seq rws (.seq (rlit "input") (.seq (ropt "s") .wb))))]

/-- Embedding of `isDataUsageQuery` (line 2209). -/
def isDataUsageQuery (q : List Char) : Bool :=
  !(isDefinitionDetect q) && dataUsagePatterns.any (fun r => reTest r q)

/-- Embedding of `aiUsagePatterns` (lines 2288-2297). -/
def aiUsagePatterns : List RE :=
  [.seq .wb (.seq (rlit "use") (.seq (ropt "s") (.seq rws (.seq (rlit "ai") .wb)))),
   rphrase ["ai", "usage"],
   rphrase ["artificial", "intelligence"],
   rphrase ["machine", "learning"],
   .seq .wb (.seq (rlit "ml") (.seq rws (rlit "capabilit"))),
   .seq .wb (.seq (rlit "ai") (.seq rws (rlit "capabilit"))),
   .seq .wb (.seq (rlit "how") (.seq rws (.seq rdotStar (.seq rws (.seq (rlit "ai") .wb))))),
   rphrase ["what", "ai"]]

/-- Embedding of `isAIUsageQuery` (line 2299). -/
def isAIUsageQuery (q : List Char) : Bool :=
  !(isDefinitionDetect q) && !(isDataUsageQuery q) &&
  aiUsagePatterns.any (fun r => reTest r q)

/-- The query-dependent part of the guards of the comparison handling steps
(lines 547, 599, 729): the comparison filters run only when the query matches
a comparison keyword and is not an early-detected definition query. -/
def isComparisonHandled (q : List Char) : Bool :=
  isComparisonQueryEarly q && !(isDefinitionQueryEarly q)

/-!  Claim C3: intent exclusivity.  -/

/-- C3 counterexample: the claim says comparison, data-usage and AI-usage are
mutually exclusive, but for the query "what data does Acme vs Beta use" both
the comparison handling guard (comparison keyword present, not an early
definition query) and the data-usage detector fire, so two of the four intent
classes apply to the same request. -/
theorem C3_counterexample :
    isComparisonHandled (String.toList "what data does Acme vs Beta use") = true ∧
    isDataUsageQuery (String.toList "what data does Acme vs Beta use") = true := by
  constructor <;> decide

/-- C3 amended: the early definition check suppresses the comparison handling;
the full definition detector suppresses data-usage and AI-usage; data-usage
suppresses AI-usage.  (Comparison handling is NOT mutually exclusive with
data-usage or AI-usage, and only the early raw-query definition check guards
it.) -/
theorem C3_amended (q : List Char) :
    (isDefinitionQueryEarly q = true → isComparisonHandled q = false) ∧
    (isDefinitionDetect q = true → isDataUsageQuery q = false ∧ isAIUsageQuery q = false) ∧
    (isDataUsageQuery q = true → isAIUsageQuery q = false) := by
  refine ⟨?_, ?_, ?_⟩
  · intro h
    simp [isComparisonHandled, h]
  · intro h
    simp [isDataUsageQuery, isAIUsageQuery, h]
  · intro h
    simp [isAIUsageQuery, h]

/-- Witness for C3_amended at concrete queries: a definition query suppresses
the other intents, and a data-usage query suppresses AI-usage. -/
theorem C3_amended_witness :
    isComparisonHandled (String.toList "What is Acme?") = false ∧
    (isDataUsageQuery (String.toList "What is Acme?") = false ∧
     isAIUsageQuery (String.toList "What is Acme?") = false) ∧
    isAIUsageQuery (String.toList "what data does Acme use") = false :=
  ⟨(C3_amended (String.toList "What is Acme?")).1 (by decide),
   (C3_amended (String.toList "What is Acme?")).2.1 (by decide),
   (C3_amended (String.toList "what data does Acme use")).2.2 (by decide)⟩

/-!  Claim C9: cosine similarity (backend/src/utils/vectorStore.ts, 33-50).  -/

/-- The running dot product of the loop in `cosineSimilarity`. -/
def dotProduct (a b : List ℚ) : ℚ :=
  (List.zip a b).foldl (fun acc p => acc + p.1 * p.2) 0

/-- The running sum of squares (`normA` / `normB` before the square root). -/
def sumSquares (v : List ℚ) : ℚ :=
  v.foldl (fun acc x => acc + x * x) 0

open Classical in
/-- Embedding of `VectorStore.cosineSimilarity` (vectorStore.ts, lines 33-50):
throws when the lengths differ; otherwise computes
`dot / (sqrt(normA) * sqrt(normB))`, guarded to return 0 when the denominator
is zero.  Vector entries are rationals (JSON numbers); the square roots are
taken in ℝ. -/
noncomputable def cosineSimilarity (vecA vecB : List ℚ) : Except (List Char) ℝ :=
  if vecA.length ≠ vecB.length then
    .error (String.toList "Vectors must have the same length")
  else if Real.sqrt ((sumSquares vecA : ℚ) : ℝ) * Real.sqrt ((sumSquares vecB : ℚ) : ℝ) = 0 then
    .ok 0
  else
    .ok (((dotProduct vecA vecB : ℚ) : ℝ) /
      (Real.sqrt ((sumSquares vecA : ℚ) : ℝ) * Real.sqrt ((sumSquares vecB : ℚ) : ℝ)))

/-- C9: cosineSimilarity throws exactly when the two vectors have different
lengths; for equal-length vectors it always returns a value, and returns 0
whenever either vector has zero norm (zero sum of squares), because the
zero-denominator branch is guarded. -/
theorem cosineSimilarity_spec (a b : List ℚ) :
    ((∃ e, cosineSimilarity a b = .error e) ↔ a.length ≠ b.length) ∧
    (a.length = b.length → (sumSquares a = 0 ∨ sumSquares b = 0) →
      cosineSimilarity a b = .ok 0) := by
  constructor
  · constructor
    · rintro ⟨e, he⟩
      by_contra hlen
      unfold cosineSimilarity at he
      rw [if_neg (fun hne => hne hlen)] at he
      split at he <;> exact Except.noConfusion he
    · intro hlen
      exact ⟨_, by unfold cosineSimilarity; rw [if_pos hlen]⟩
  · intro hlen hz
    unfold cosineSimilarity
    rw [if_neg (fun hne => hne hlen)]
    rw [if_pos]
    rcases hz with hz | hz <;> rw [hz] <;> simp

/-- Witness for cosineSimilarity_spec: equal-length zero vectors yield
`.ok 0`. -/
theorem cosineSimilarity_spec_witness :
    cosineSimilarity [0] [0] = .ok 0 :=
  (cosineSimilarity_spec [0] [0]).2 rfl (Or.inl (by norm_num [sumSquares]))

/-!
Data model of the ranking pipeline.  A `DocumentVector` pairs a chunk with the
cosine similarity of its embedding against the query embedding; the embedding
provider and the cosine computation are collaborators, so the similarity is an
input of the model (a rational in [-1,1] in practice).
-/

structure Chunk where
  text : List Char
  sourceFile : List Char
  chunkIndex : Nat
deriving DecidableEq

structure DocumentVector where
  chunk : Chunk
  sim : ℚ
deriving DecidableEq

structure Response where
  answer : List Char
  source : List Char
  confidence : ℚ
  explanation : Option (List Char)
deriving DecidableEq

/-- Lexicographic order on strings by code point (model of `localeCompare`
for the ASCII file names in play). -/
def strLt : List Char → List Char → Bool
  | [], [] => false
  | [], _ :: _ => true
  | _ :: _, [] => false
  | a :: as, b :: bs =>
    if a.toNat < b.toNat then true
    else if b.toNat < a.toNat then false
    else strLt as bs

/-- First-occurrence deduplication, modelling the insertion order of a
JavaScript `Map` keyed by document name. -/
def dedupAux : List (List Char) → List (List Char) → List (List Char)
  | _, [] => []
  | seen, x :: xs =>
    if seen.contains x then dedupAux seen xs else x :: dedupAux (x :: seen) xs

def docNamesOf (vs : List DocumentVector) : List (List Char) :=
  dedupAux [] (vs.map (fun v => v.chunk.sourceFile))

/-- The chunks of one document, in store order (the value list of the
`Map` groupings in the source). -/
def docVecsOf (vs : List DocumentVector) (name : List Char) : List DocumentVector :=
  vs.filter (fun v => v.chunk.sourceFile = name)

/-- Stable sort by chunk index, `(a, b) => a.chunk.chunkIndex - b.chunk.chunkIndex`. -/
def sortByIdx (vs : List DocumentVector) : List DocumentVector :=
  vs.mergeSort (fun a b => decide (a.chunk.chunkIndex ≤ b.chunk.chunkIndex))

/-- Word-boundary regex built from a dynamic string of word characters
(`new RegExp('\\b' + escaped + '\\b', 'i')`). -/
def rwordL (w : List Char) : RE := .seq .wb (.seq (.lit (lowerStr w)) .wb)

/-- A dynamic case-insensitive literal (`escaped` interpolation without
boundaries). -/
def rlitL (w : List Char) : RE := .lit (lowerStr w)

/-!  Step 2.5: strict document-level filter for comparison queries
(lines 547-595).  -/

def step25 (q : List Char) (allVectors : List DocumentVector) : List DocumentVector :=
  match extractEntityEarly q with
  | some e =>
    if isComparisonQueryEarly q && !(isDefinitionQueryEarly q) then
      let names := docNamesOf allVectors
      let eligibleDocs := names.filter
        (fun d => (docVecsOf allVectors d).any (fun v => reTest (rwordL e) v.chunk.text))
      allVectors.filter (fun v => eligibleDocs.contains v.chunk.sourceFile)
    else allVectors
  | none => allVectors

/-!  Step 2.6: section-aware retrieval for comparison queries
(lines 599-724).  -/

/-- Embedding of `comparisonSectionKeywords` (lines 614-620). -/
def comparisonSectionKeywords : List RE :=
  [rword "difference", rword "compare", rword "comparison",
   .seq .wb (.seq (rlit "vs") (.seq (ropt ".") .wb)),
   rword "versus"]

/-- Title of a numbered section header, `^(\d+\.[\d.]*)\s+(.+)$` (line 662):
digits, a dot, more digits/dots, whitespace, then a non-empty title running to
the end of the line.  The character classes are pairwise disjoint, so the
parse is deterministic. -/
def numberedHeaderTitle (l : List Char) : Option (List Char) :=
  let ds := l.takeWhile isDigitChar
  if ds.isEmpty then none
  else
    match l.drop ds.length with
    | '.' :: r2 =>
      let dd := r2.takeWhile (fun c => isDigitChar c || c == '.')
      let r3 := r2.drop dd.length
      let sp := r3.takeWhile isSpaceChar
      if sp.isEmpty then none
      else
        let title := r3.drop sp.length
        if title.isEmpty then none else some title
    | _ => none

/-- Header detection on one line (lines 653-679): trimmed, non-empty, at most
120 characters; either a numbered section header (whose title is the part
after the numbering) or a Title-Case line of 2-15 words with at least 50%
capitalized words (whose title is the whole trimmed line). -/
def lineHeaderTitle (line : List Char) : Option (List Char) :=
  let t := trimWS line
  if t.length = 0 || decide (120 < t.length) then none
  else
    match numberedHeaderTitle t with
    | some ti => some ti
    | none =>
      let ws := splitWS t
      if decide (2 ≤ ws.length) && decide (ws.length ≤ 15) &&
         decide (ws.length ≤ (ws.filter (fun w => decide (0 < w.length) && headUpper w)).length * 2)
      then some t else none

/-- Scan the lines of one chunk, updating the in-matching-section flag
(lines 647-708): a header naming the entity and a comparison keyword opens a
matching section; any other header closes one.  Returns the new flag and
whether a matching header was seen. -/
def scanChunkLines (e : List Char) (st : Bool × Bool) (lines : List (List Char)) : Bool × Bool :=
  lines.foldl
    (fun st line =>
      match lineHeaderTitle line with
      | some ti =>
        if reTest (rwordL e) ti && comparisonSectionKeywords.any (fun r => reTest r ti) then
          (true, true)
        else if st.1 then (false, st.2) else st
      | none => st)
    st

/-- Per-document pass of Step 2.6 over index-sorted chunks: a chunk belongs to
the matching section when the flag is set after its own lines are scanned. -/
def sectionChunksForDoc (e : List Char) (sorted : List DocumentVector) :
    List DocumentVector × Bool :=
  let final := sorted.foldl
    (fun acc v =>
      let st := scanChunkLines e (acc.2.1, acc.2.2) (splitOnChar '\n' v.chunk.text)
      (if st.1 then acc.1 ++ [v] else acc.1, st))
    ([], (false, false))
  (final.1, final.2.2)

def step26 (q : List Char) (allVectors : List DocumentVector) : List DocumentVector :=
  match extractEntityEarly q with
  | some e =>
    if isComparisonQueryEarly q && !(isDefinitionQueryEarly q) && decide (0 < allVectors.length) then
      let results := (docNamesOf allVectors).map
        (fun d => sectionChunksForDoc e (sortByIdx (docVecsOf allVectors d)))
      let chunks := (results.map Prod.fst).flatten
      let found := (results.map Prod.snd).any id
      if found && decide (0 < chunks.length) then chunks else allVectors
    else allVectors
  | none => allVectors

/-!  Step 2.7: TC-5 comparison query filter (lines 729-919).  -/

/-- Embedding of `overviewScopePatterns` (lines 747-757). -/
def overviewScopePatterns : List RE :=
  [rphrase ["provides", "a", "detailed", "understanding"],
   rphrase ["covers", "its", "purpose"],
   rphrase ["this", "document", "provides"],
   rphrase ["platform", "overview"],
   rphrase ["this", "document", "covers"],
   rphrase ["this", "document", "explains"],
   .seq .wb (.seq (rlit "overview") (.seq rws (.seq (rlit "of") rws))),
   .seq .wb (.seq (rlit "introduction") (.seq rws (.seq (rlit "to") rws))),
   .seq .wb (.seq (rlit "covering") (.seq rws (.seq (reAltList [rlit "its", rlit "the"]) rws))),
   rphrase ["detailed", "understanding", "of"]]

/-- Embedding of `topicListingPatterns` (lines 761-765). -/
def topicListingPatterns : List RE :=
  [reSeqList [rlit "purpose", rdotStar, rlit "architecture", rdotStar, rlit "ai",
              rdotStar, rlit "differentiation"],
   reSeqList [rlit "covering", rdotStar, rlit "purpose", rdotStar, rlit "architecture"],
   reSeqList [rword "purpose", rdotStar, rword "architecture", rdotStar, rword "ai"]]

/-- Embedding of `isOverviewOrScope` (lines 768-772). -/
def isOverviewOrScope (text : List Char) : Bool :=
  overviewScopePatterns.any (fun p => reTest p text) ||
  topicListingPatterns.any (fun p => reTest p text)

/-- `comparisonSectionHeaderPattern` (line 741):
`\b(difference|compare|comparison|vs\.?|versus)\b`. -/
def comparisonSectionHeaderRE : RE :=
  .seq .wb (.seq (reAltList [rlit "difference", rlit "compare", rlit "comparison",
                             .seq (rlit "vs") (ropt "."), rlit "versus"]) .wb)

/-- `anySectionHeaderPattern` (line 744): `^\d+\.\s+`, tested anchored on a
trimmed line. -/
def anySectionHeaderRE : RE :=
  .seq (.rep isDigitChar 1 none) (.seq (rlit ".") rws)

/-- Embedding of `hasComparisonSectionHeader` (lines 775-784). -/
def hasComparisonSectionHeader (text : List Char) : Bool :=
  (splitOnChar '\n' text).any (fun line =>
    let t := trimWS line
    reTestAt0 anySectionHeaderRE t && reTest comparisonSectionHeaderRE t)

/-- Embedding of `startsWithNewSectionHeader` (lines 787-800): only the first
non-empty (trimmed) line is examined. -/
def startsWithNewSectionHeader (text : List Char) : Bool :=
  match (splitOnChar '\n' text).findSome?
      (fun line => let t := trimWS line; if t.length ≠ 0 then some t else none) with
  | some t => reTestAt0 anySectionHeaderRE t && !(reTest comparisonSectionHeaderRE t)
  | none => false

/-- Entity-1 pattern of the TC-5 filter (lines 736-738): the extracted entity,
or the literal `celonis` when no entity was extracted. -/
def tc5EntityRE (ent : Option (List Char)) : RE :=
  match ent with
  | some e => rwordL e
  | none => rword "celonis"

/-- The comparison section range of one document (lines 823-843): from the
first chunk containing a comparison section header until the first later chunk
starting with a new non-comparison section header (exclusive), or the end of
the document. -/
def tc5Range (sorted : List DocumentVector) : Option (Nat × Nat) :=
  match sorted.findIdx? (fun v => hasComparisonSectionHeader v.chunk.text) with
  | some i =>
    match (sorted.drop (i + 1)).findIdx? (fun v => startsWithNewSectionHeader v.chunk.text) with
    | some k => some (i, i + 1 + k)
    | none => some (i, sorted.length)
  | none => none

/-- Chunk categorization of the TC-5 filter (lines 846-892):
`some true` = prioritized comparison-section chunk, `some false` = other valid
chunk (has entity 1), `none` = excluded. -/
def tc5InSection (range : Option (Nat × Nat)) (i : Nat) : Bool :=
  match range with
  | some se => decide (se.1 ≤ i) && decide (i < se.2)
  | none => false

def tc5Classify (ent : Option (List Char)) (range : Option (Nat × Nat))
    (i : Nat) (v : DocumentVector) : Option Bool :=
  let hasEntity1 := reTest (tc5EntityRE ent) v.chunk.text
  let isFirstChunk := v.chunk.chunkIndex = 0
  let isOverviewChunk := isOverviewOrScope v.chunk.text
  let isInComparisonSection := tc5InSection range i
  if isFirstChunk then none
  else if isOverviewChunk && !isInComparisonSection then none
  else if !hasEntity1 && !isInComparisonSection then none
  else if isInComparisonSection then some true
  else if hasEntity1 then some false
  else none

/-- Step 2.7 proper: `none` models the early
"No clear comparison found" response (lines 908-916). -/
def step27 (q : List Char) (allVectors : List DocumentVector) :
    Option (List DocumentVector) :=
  if isComparisonQueryEarly q && !(isDefinitionQueryEarly q) && decide (0 < allVectors.length) then
    let ent := extractEntityEarly q
    let perDoc := (docNamesOf allVectors).map (fun d =>
      let sorted := sortByIdx (docVecsOf allVectors d)
      let range := tc5Range sorted
      ((sorted.enum.filter (fun iv => tc5Classify ent range iv.1 iv.2 = some true)).map Prod.snd,
       (sorted.enum.filter (fun iv => tc5Classify ent range iv.1 iv.2 = some false)).map Prod.snd))
    let compChunks := (perDoc.map Prod.fst).flatten
    let others := (perDoc.map Prod.snd).flatten
    if compChunks.length ≠ 0 then some compChunks
    else if others.length ≠ 0 then some others
    else none
  else some allVectors

/-!  Steps 3-3.7: query words, intent keywords, primary entity, definition
subject.  -/

/-- Step 3 (line 922): `normalizedQuery.split(' ').filter(w => w.length > 0)`. -/
def queryWordsOf (q : List Char) : List (List Char) :=
  (splitOnChar ' ' (normalizeTextForMatching q)).filter (fun w => w.length ≠ 0)

/-- Embedding of `detectIntentKeywords` (lines 931-957). -/
def detectIntentKeywords (q : List Char) : List (List Char) :=
  let ql := lowerStr q
  let nql := lowerStr (normalizeTextForMatching q)
  let hasData :=
    reTest (rword "data") ql || reTest (rword "data") nql ||
    reTest (.seq .wb (.seq (rlit "use") (.seq (ropt "s") (.seq rws (.seq (rlit "data") .wb))))) ql ||
    reTest (rphrase ["data", "does"]) ql ||
    reTest (rphrase ["what", "data"]) ql
  let hasAI :=
    reTest (rword "ai") ql || reTest (rword "ai") nql ||
    reTest (rphrase ["artificial", "intelligence"]) ql ||
    reTest (rphrase ["machine", "learning"]) ql ||
    reTest (rword "ml") ql ||
    reTest (.seq .wb (.seq (rlit "use") (.seq (ropt "s") (.seq rws (.seq (rlit "ai") .wb))))) ql ||
    reTest (.seq .wb (.seq (rlit "how") (.seq rws (.seq rdotStar (.seq rws
      (.seq (rlit "use") (.seq (ropt "s") (.seq rws (.seq (rlit "ai") .wb))))))))) ql
  (if hasData then [String.toList "data"] else []) ++
  (if hasAI then [String.toList "ai", String.toList "artificial intelligence",
                  String.toList "machine learning"] else [])

/-- The stop-word set of `extractPrimaryEntity` (line 971); unlike the early
extractor it has no comparison vocabulary. -/
def stopWordsPrimary : List (List Char) :=
  ["what", "how", "does", "do", "is", "are", "the", "a", "an", "and", "or",
   "but", "in", "on", "at", "to", "for", "of", "with", "by", "from", "as",
   "use", "uses", "using", "used", "data", "ai", "artificial", "intelligence",
   "machine", "learning"].map String.toList

/-- First character satisfies `c === c.toUpperCase()` only (the fallback loop
of `extractPrimaryEntity` omits the `!== toLowerCase` half): every character
except a lower-case letter. -/
def headUpperLoose (w : List Char) : Bool :=
  match w with
  | c :: _ => !(97 ≤ c.toNat && c.toNat ≤ 122)
  | [] => false

/-- Embedding of `extractPrimaryEntity` (lines 969-1000): a strict loop over
the whitespace tokens, then a looser fallback loop. -/
def extractPrimaryEntity (q : List Char) : Option (List Char) :=
  match (splitWS q).findSome? (fun w =>
      let cw := cleanWordOf w
      if decide (2 < cw.length) && headUpper cw && !(stopWordsPrimary.contains (lowerStr cw))
      then some cw else none) with
  | some e => some e
  | none =>
    (splitWS q).findSome? (fun w =>
      let cw := cleanWordOf w
      if decide (2 < cw.length) && headUpperLoose cw && !(stopWordsPrimary.contains (lowerStr cw))
      then some cw else none)

/-- Consume a case-insensitive literal at the start of the input, returning
the rest. -/
def afterLitCI (w : String) (s : List Char) : Option (List Char) :=
  match litRun (w.toList.map jsToLower) none s with
  | some pr => some pr.2
  | none => none

/-- Group 1 of `/^what\s+is\s+([^?]+)/i` applied to the raw query
(lines 1030-1033).  The classes are disjoint so the parse is
deterministic. -/
def whatIsExtract (q : List Char) : Option (List Char) :=
  match afterLitCI "what" q with
  | none => none
  | some r1 =>
    let sp := r1.takeWhile isSpaceChar
    if sp.isEmpty then none
    else
      match afterLitCI "is" (r1.drop sp.length) with
      | none => none
      | some r2 =>
        let sp2 := r2.takeWhile isSpaceChar
        if sp2.isEmpty then none
        else
          let body := (r2.drop sp2.length).takeWhile (fun c => c != '?')
          if body.isEmpty then none else some body

/-- Group 1 of `/^define\s+([^:?]+)/i` (lines 1037-1040). -/
def defineExtract (q : List Char) : Option (List Char) :=
  match afterLitCI "define" q with
  | none => none
  | some r1 =>
    let sp := r1.takeWhile isSpaceChar
    if sp.isEmpty then none
    else
      let body := (r1.drop sp.length).takeWhile (fun c => c != ':' && c != '?')
      if body.isEmpty then none else some body

/-- `subject.replace(/^(a|an|the)\s+/i, '')` (line 1050), with the JavaScript
alternation preference: `a` first, then `an`, then `the`. -/
def stripArticle (s : List Char) : List Char :=
  let tryA (w : String) : Option (List Char) :=
    match afterLitCI w s with
    | some r =>
      let sp := r.takeWhile isSpaceChar
      if sp.isEmpty then none else some (r.drop sp.length)
    | none => none
  match tryA "a" with
  | some r => r
  | none =>
    match tryA "an" with
    | some r => r
    | none =>
      match tryA "the" with
      | some r => r
      | none => s

/-- Subject extraction of `detectDefinitionQuery` (lines 1026-1062), evaluated
only when the query is a definition query: the "what is"/"define" capture,
falling back to the primary entity; stripped of a leading article; and when
that leaves an empty subject with more than two query words, the non-skip
query words joined by spaces.  An empty final subject is `null` (the
JavaScript `subject || null`). -/
def definitionSubject (q : List Char) (queryWords : List (List Char))
    (primaryEntity : Option (List Char)) : Option (List Char) :=
  let s1 := whatIsExtract q
  let s2 := match s1 with | some s => some s | none => defineExtract q
  let s3 := match s2 with | some s => some s | none => primaryEntity
  match s3 with
  | none => none
  | some subj0 =>
    let subj1 := trimWS (stripArticle (trimWS subj0))
    let subj2 :=
      if subj1.length = 0 ∧ 2 < queryWords.length then
        let skip := ["what", "is", "define", "a", "an", "the"].map String.toList
        let remaining := queryWords.filter (fun w => !(skip.contains (lowerStr w)))
        if remaining.length ≠ 0 then List.intercalate [' '] remaining else subj1
      else subj1
    if subj2.length = 0 then none else some subj2

/-- Per-request derived query state (`Query Intent` of the spec's data
model). -/
structure QueryCtx where
  query : List Char
  queryWords : List (List Char)
  intentKeywords : List (List Char)
  primaryEntity : Option (List Char)
  isDefinition : Bool
  subject : Option (List Char)

def mkQueryCtx (q : List Char) : QueryCtx :=
  let qws := queryWordsOf q
  let pe := extractPrimaryEntity q
  let isdef := isDefinitionDetect q
  { query := q
    queryWords := qws
    intentKeywords := detectIntentKeywords q
    primaryEntity := pe
    isDefinition := isdef
    subject := if isdef then definitionSubject q qws pe else none }

/-!  Step 5.5: document-level relevance filtering (lines 1095-1169).  -/

/-- Whether one document is relevant to the primary entity (lines 1105-1153):
filename match, title-chunk (index 0) match, or a match in the first
`max 1 ⌈0.15·total⌉` stored chunks.  `(3n+19)/20` is `⌈0.15·n⌉` in ℕ. -/
def docRelevant (entity : List Char) (docChunks : List DocumentVector)
    (fileName : List Char) : Bool :=
  let entLower := lowerStr entity
  let entRE := rwordL entity
  (containsSub entLower (lowerStr fileName) || reTest entRE fileName) ||
  (match docChunks.find? (fun v => v.chunk.chunkIndex == 0) with
   | some tc =>
     containsSub entLower (lowerStr tc.chunk.text) || reTest entRE tc.chunk.text ||
     containsSub entLower (normalizeTextForMatching tc.chunk.text)
   | none => false) ||
  (let thr := max 1 ((3 * docChunks.length + 19) / 20)
   (docChunks.take thr).any (fun v =>
     containsSub entLower (lowerStr v.chunk.text) || reTest entRE v.chunk.text ||
     containsSub entLower (normalizeTextForMatching v.chunk.text)))

/-- The document filter: restrict to relevant documents when any exist, else
fall back to all vectors (lines 1156-1165). -/
def docFilterStage (primaryEntity : Option (List Char))
    (v2 : List DocumentVector) : List DocumentVector :=
  match primaryEntity with
  | none => v2
  | some ent =>
    let rel := (docNamesOf v2).filter (fun d => docRelevant ent (docVecsOf v2 d) d)
    if rel.length ≠ 0 then v2.filter (fun v => rel.contains v.chunk.sourceFile) else v2

/-!  Step 6: candidate selection and scoring (lines 1171-1601).  -/

structure Candidate where
  vector : DocumentVector
  semanticSimilarity : ℚ
  hasQueryKeywords : Bool
  keywordCoverage : ℚ
  positionBonus : ℚ
  explicitTermBonus : ℚ
  definitionBonus : ℚ
  definitionPenalty : ℚ
  comparisonBonus : ℚ
  comparisonIntroPenalty : ℚ
  finalScore : ℚ
deriving DecidableEq

/-- The crude stemmer of the keyword matcher (line 1238): sequentially
`replace(/s$/,'')`, `replace(/es$/,'')`, `replace(/ies$/,'y')`. -/
def stemQS (w : List Char) : List Char :=
  let w1 := if [ 's' ].isSuffixOf w then w.take (w.length - 1) else w
  let w2 := if [ 'e', 's' ].isSuffixOf w1 then w1.take (w1.length - 2) else w1
  if [ 'i', 'e', 's' ].isSuffixOf w2 then w2.take (w2.length - 3) ++ [ 'y' ] else w2

/-- One query word is found in the normalized chunk text (lines 1228-1248):
word-boundary match, else a stem match over the chunk's whitespace tokens. -/
def queryWordFound (qw normChunk : List Char) : Bool :=
  reTest (rwordL qw) normChunk ||
  (let wordStem := stemQS qw
   (splitWS normChunk).any (fun cw =>
     cw == qw || (stemQS cw == wordStem && decide (3 < wordStem.length))))

/-- Embedding of `introPatternsForPosition` (lines 1273-1278). -/
def introPatternsForPosition : List RE :=
  [reSeqList [rlit "this", rws, rlit "document", rws, rlit "provides"],
   reSeqList [rlit "detailed", rws, rlit "understanding"],
   reSeqList [rlit "covering", rws, reAltList [rlit "its", rlit "the"]],
   reSeqList [rlit "this", rws, reAltList [rlit "document", rlit "guide", rlit "manual"], rws,
              reAltList [rlit "provides", rlit "covers", rlit "explains"]]]

/-- The unanchored part of `introPatterns` in the definition-bonus block
(lines 1349-1354). -/
def introPatternsDefinition : List RE :=
  [reSeqList [rlit "this", rws, rlit "document", rws, rlit "provides"],
   reSeqList [rlit "detailed", rws, rlit "understanding"],
   reSeqList [rlit "covering", rws, reAltList [rlit "its", rlit "the"]],
   reSeqList [rlit "this", rws, reAltList [rlit "document", rlit "guide", rlit "manual"], rws,
              reAltList [rlit "provides", rlit "covers", rlit "explains"]],
   reSeqList [rlit "overview", rws, rlit "of"]]

/-- The anchored pattern `^this\s+(document|guide|manual)/i` (line 1355). -/
def reThisDocAnchor : RE :=
  .seq (rlit "this") (.seq rws (reAltList [rlit "document", rlit "guide", rlit "manual"]))

/-- `isIntroChunk` of the definition-bonus block (line 1358). -/
def isIntroChunkDefinition (text : List Char) : Bool :=
  introPatternsDefinition.any (fun p => reTest p text) || reTestAt0 reThisDocAnchor text

def altArticle : RE := reAltList [rlit "a", rlit "an", rlit "the"]

/-- `${escapedSubjectLower}\s+is\s+(a|an|the)` (line 1361). -/
def defSimpleRE (subj : List Char) : RE :=
  reSeqList [rlitL subj, rws, rlit "is", rws, altArticle]

/-- Embedding of `definitionPatterns` (lines 1375-1384). -/
def definitionPatterns (subj : List Char) : List RE :=
  [reSeqList [.wb, rlitL subj, rws, rlit "is", rws, altArticle, rws],
   reSeqList [.wb, rlitL subj, rws, rlit "is", rws, altArticle, .wb],
   reSeqList [.wb, rlitL subj,
              .rep (fun c => c == ',' || isSpaceChar c || c == '-') 1 none, altArticle, rws],
   reSeqList [rlitL subj, rws, rlit "is", rws, altArticle, rws]]

/-- `/what\s+is\s+[^?]*\?/i`. -/
def reWhatIsQuestion : RE :=
  reSeqList [rlit "what", rws, rlit "is", rws, .rep (fun c => c != '?') 0 none, rlit "?"]

/-- `/what\s+is\s+[^?]*\?$/i` (tested against the text before the match). -/
def reWhatIsQuestionEnd : RE := .seq reWhatIsQuestion .eos

/-- `what\s+is\s+${subjLower}[^?]*\?` (line 1432). -/
def reWhatIsSubjQuestion (subj : List Char) : RE :=
  reSeqList [rlit "what", rws, rlit "is", rws, rlitL subj,
             .rep (fun c => c != '?') 0 none, rlit "?"]

/-- The pattern loop of the definition bonus (lines 1388-1427): the first
pattern that matches (on the raw or lower-cased text), whose match is not a
bare trailing question, and that re-tests on the raw text, sets the bonus and
stops; otherwise the scan continues. -/
def defBonusLoop (text lowerText : List Char) (pos : ℚ) (hasQuestion : Bool) :
    List RE → ℚ
  | [] => 0
  | p :: ps =>
    if reTest p text || reTest p lowerText then
      match reSearch p lowerText with
      | some il =>
        let mi := il.1
        let before := trimWS (text.take mi)
        let afterLen := min (text.length - mi) 100
        let isQuestionOnly := reTest reWhatIsQuestionEnd before && decide (afterLen < 30)
        if !isQuestionOnly then
          if reTest p text then
            (if pos ≤ 3/10 then 1 else if pos ≤ 7/10 then 4/5 else 3/5) +
            (if hasQuestion then 1/5 else 0)
          else defBonusLoop text lowerText pos hasQuestion ps
        else defBonusLoop text lowerText pos hasQuestion ps
      | none => defBonusLoop text lowerText pos hasQuestion ps
    else defBonusLoop text lowerText pos hasQuestion ps

/-- Definition bonus and penalty of one chunk (lines 1332-1448), given the
subject, the chunk text and the chunk position in its document. -/
def definitionScores (subj text : List Char) (pos : ℚ) : ℚ × ℚ :=
  let lowerText := lowerStr text
  let isIntro := isIntroChunkDefinition text
  let hasDefSimple := reTest (defSimpleRE subj) text
  let pen0 : ℚ := if isIntro && !hasDefSimple then -1 else 0
  let shouldCheck := decide (pos ≤ 3/10) || decide (pos ≤ 7/10)
  if shouldCheck then
    let hasQuestion := reTest reWhatIsQuestion text
    let bonus := defBonusLoop text lowerText pos hasQuestion (definitionPatterns subj)
    if bonus = 0 then
      let hasQ2 := reTest (reWhatIsSubjQuestion subj) text
      let hasDP2 := (definitionPatterns subj).any (fun p => reTest p text || reTest p lowerText)
      let pen1 := if hasQ2 && !hasDP2 then (-7/10 : ℚ) else pen0
      let pen2 := if isIntro && hasQ2 && !hasDP2 then (-3/2 : ℚ) else pen1
      (0, pen2)
    else (bonus, pen0)
  else (0, pen0)

/-- Embedding of `comparisonQueryKeywords` (lines 1186-1192). -/
def comparisonQueryKeywords : List RE :=
  [rword "difference",
   .seq .wb (.seq (rlit "vs") (.seq (ropt ".") .wb)),
   rword "versus", rword "compare", rword "comparison"]

/-- Embedding of `isComparisonQueryForScoring` (line 1193). -/
def isComparisonQueryForScoring (q : List Char) : Bool :=
  comparisonQueryKeywords.any (fun r => reTest r q)

/-- Embedding of `contrastLanguagePatterns` (lines 1196-1207). -/
def contrastLanguagePatterns : List RE :=
  [rword "while", rword "whereas", rphrase ["in", "contrast"],
   rphrase ["compared", "to"], rword "unlike", rphrase ["rather", "than"],
   rphrase ["on", "the", "other", "hand"], rword "however", rword "but",
   rphrase ["instead", "of"]]

def altWWB : RE := reAltList [rlit "while", rlit "whereas", rlit "but"]

def altWW : RE := reAltList [rlit "while", rlit "whereas"]

def altWWVs : RE := reAltList [rlit "while", rlit "whereas", .seq (rlit "vs") (ropt ".")]

/-- Embedding of `dualFramingPatterns` (lines 1210-1217). -/
def dualFramingPatterns : List RE :=
  [reSeqList [rlit "celonis", rws, rdotStar, rws, altWWB, rws, rdotStar, rws, rlit "agentic"],
   reSeqList [rlit "celonis", rws, rdotStar, rws, altWWB, rws, rdotStar, rws, rlit "platform"],
   reSeqList [rlit "what", rws, rlit "should", rws, rdotStar, rws, rlit "vs", ropt ".",
              rws, rlit "how", rws, rlit "to"],
   reSeqList [rlit "problem", rws, rdotStar, rws, altWWVs, rws, rdotStar, rws,
              reAltList [rlit "solution", rlit "execution", rlit "task"]],
   reSeqList [rlit "discover", rdotStar, rws, altWWVs, rws, rdotStar, rws, rlit "execut"],
   reSeqList [rlit "identify", rdotStar, rws, altWWVs, rws, rdotStar, rws, rlit "automat"]]

/-- Embedding of `explicitDualEntityPatterns` (lines 1470-1488). -/
def explicitDualEntityPatterns : List RE :=
  [reSeqList [rlit "celonis", rws, rdot 5 80, rws, altWW, rws, rdot 0 20,
              rlit "agentic", rws, rlit "platform"],
   reSeqList [rlit "celonis", rws,
              reAltList [rlit "answers", rlit "focuses", rlit "discovers", rlit "finds",
                         rlit "identifies"],
              rdot 5 60, altWW, rdot 0 30, rlit "agentic"],
   reSeqList [rlit "agentic", rws, rlit "platform", rdot 5 60, altWW, rdot 0 30, rlit "celonis"],
   reSeqList [rlit "celonis", rdot 10 80, rlit "in", rws, rlit "contrast", rdot 0 30,
              rlit "agentic"],
   reSeqList [rlit "unlike", rws, rlit "agentic", rws, rlit "platform", rdot 0 30,
              rlit "celonis"],
   reSeqList [rlit "discover", ropt "s", rws, rlit "and", rws, rlit "prioritiz", rdot 0 30,
              altWW, rdot 0 30, rlit "automat"],
   reSeqList [rlit "find", ropt "s", rws, rlit "problem", ropt "s", rdot 0 30, altWW,
              rdot 0 30, rlit "execut"],
   reSeqList [rlit "what", rws, rlit "should", rws, rdot 0 30, altWWVs, rdot 0 30,
              rlit "how", rws, rlit "to"],
   reSeqList [rlit "problem", rws, rlit "discovery", rdot 0 30, altWWVs, rdot 0 30,
              rlit "task", rws, rlit "execution"],
   reSeqList [rlit "prioritiz", rdot 0 30, rlit "problem", rdot 0 30, altWW, rdot 0 30,
              rlit "automat"]]

/-- Embedding of `headerPatterns` of the header-late penalty (lines 1545-1551). -/
def headerLatePatterns : List RE :=
  [reSeqList [.rep isDigitChar 1 none, rlit ".", rwsStar, rlit "difference", rws, rlit "between"],
   reSeqList [.rep isDigitChar 1 none, rlit ".", rwsStar, rlit "difference", rws],
   reSeqList [.rep isDigitChar 1 none, rlit ".", rwsStar, rlit "compare"],
   reSeqList [.rep isDigitChar 1 none, rlit ".", rwsStar, rlit "comparison"],
   reSeqList [.rep isDigitChar 1 none, rlit ".", rwsStar, .rep (fun c => c != '\n') 0 none,
              rws, rlit "vs", ropt ".", rws]]

/-- `isDataQueryForComparison` (line 1456). -/
def isDataQueryForComparison (q : List Char) : Bool :=
  reTest (rphrase ["what", "data"]) q || reTest (rphrase ["data", "does"]) q ||
  reTest (.seq .wb (.seq (rlit "use") (.seq (ropt "s") (.seq rws (.seq (rlit "data") .wb))))) q

/-- `isAIQueryForComparison` (line 1457). -/
def isAIQueryForComparison (q : List Char) : Bool :=
  reTest (.seq .wb (.seq (rlit "use") (.seq (ropt "s") (.seq rws (.seq (rlit "ai") .wb))))) q ||
  reTest (rphrase ["artificial", "intelligence"]) q ||
  reTest (rphrase ["machine", "learning"]) q

/-- Comparison bonus and intro/header penalty of one chunk (lines 1450-1576):
the tiered contrast bonus (+0.6 / +0.4 / +0.2 / -0.4), the -0.3 intro
penalty, and the header-late penalty (-1.2 / -0.6) added on top. -/
def comparisonScores (q : List Char) (isDef : Bool) (text : List Char) (pos : ℚ) : ℚ × ℚ :=
  if isComparisonQueryForScoring q && !isDef &&
     !(isDataQueryForComparison q) && !(isAIQueryForComparison q) then
    let lowerText := lowerStr text
    let hasExplicitDualEntity := explicitDualEntityPatterns.any (fun p => reTest p text)
    let hasContrastLanguage := contrastLanguagePatterns.any (fun p => reTest p text)
    let hasDualFraming := dualFramingPatterns.any (fun p => reTest p text)
    let mentionsBoth := reTest (rword "celonis") lowerText && reTest (rword "agentic") lowerText
    let bonus : ℚ :=
      if hasExplicitDualEntity then 3/5
      else if (hasContrastLanguage || hasDualFraming) && mentionsBoth then 2/5
      else if hasContrastLanguage || hasDualFraming then 1/5
      else -2/5
    let hasAnyComparisonTerms :=
      hasContrastLanguage || hasDualFraming || hasExplicitDualEntity ||
      reTest (rword "difference") lowerText ||
      reTest (.seq .wb (rlit "compare")) lowerText ||
      reTest (.seq .wb (.seq (rlit "vs") (.seq (ropt ".") .wb))) lowerText
    let introPen : ℚ := if decide (pos ≤ 3/20) && !hasAnyComparisonTerms then -3/10 else 0
    let headerPen : ℚ :=
      match headerLatePatterns.findSome? (fun p => reMatchedText p text) with
      | some m =>
        let hp := (indexOfSub m text).getD 0
        if decide (1/2 < (hp : ℚ) / text.length) then -6/5
        else if decide (3/10 < (hp : ℚ) / text.length) then -3/5
        else 0
      | none => 0
    (bonus, introPen + headerPen)
  else (0, 0)

/-- Scoring of one chunk (the loop body, lines 1220-1601): `none` when the
chunk fails the candidate admission rule (no query keyword and similarity
below 0.80, line 1258). -/
def scoreChunk (ctx : QueryCtx) (total : Nat) (v : DocumentVector) : Option Candidate :=
  let normChunk := normalizeTextForMatching v.chunk.text
  let found := (ctx.queryWords.filter (fun qw => queryWordFound qw normChunk)).length
  let hasQueryKeywords := decide (0 < found)
  let keywordCoverage : ℚ :=
    if 0 < ctx.queryWords.length then (found : ℚ) / ctx.queryWords.length else 0
  if !hasQueryKeywords && decide (v.sim < 4/5) then none
  else
    let pos : ℚ := (v.chunk.chunkIndex : ℚ) / (total : ℚ)
    let isIntroPos := introPatternsForPosition.any (fun p => reTest p v.chunk.text)
    let positionBonus : ℚ :=
      if v.chunk.chunkIndex = 0 then
        (if ctx.isDefinition && isIntroPos then 1/10 else 1/2)
      else if decide (pos ≤ 3/20) then
        (if ctx.isDefinition && isIntroPos then 1/20 else 1/5)
      else 0
    let explicitTermBonus : ℚ :=
      if ctx.intentKeywords.length ≠ 0 &&
         ctx.intentKeywords.any (fun kw =>
           if kw.contains ' ' then
             containsSub kw (lowerStr v.chunk.text) || containsSub kw (lowerStr normChunk)
           else
             reTest (rwordL kw) (lowerStr v.chunk.text) || reTest (rwordL kw) (lowerStr normChunk))
      then 3/10 else 0
    let defScores :=
      if ctx.isDefinition then
        match ctx.subject with
        | some subj => definitionScores subj v.chunk.text pos
        | none => ((0 : ℚ), (0 : ℚ))
      else ((0 : ℚ), (0 : ℚ))
    let compScores := comparisonScores ctx.query ctx.isDefinition v.chunk.text pos
    let finalScore := v.sim + keywordCoverage * (3/10) + positionBonus + explicitTermBonus +
      defScores.1 + defScores.2 + compScores.1 + compScores.2
    some ⟨v, v.sim, hasQueryKeywords, keywordCoverage, positionBonus, explicitTermBonus,
          defScores.1, defScores.2, compScores.1, compScores.2, finalScore⟩

/-- The candidate list (line 1219): each surviving chunk of the
document-filtered vectors, scored with document totals taken from the
post-comparison-filter vector set `v2` (the `chunksByDocument` map). -/
def buildCandidates (ctx : QueryCtx) (v2 vts : List DocumentVector) : List Candidate :=
  vts.filterMap (fun v => scoreChunk ctx (docVecsOf v2 v.chunk.sourceFile).length v)

/-!  Step 7: two-tier definition detection and synthesis (lines 1607-2193).  -/

/-- Embedding of `architectureIndicators` (lines 1626-1643). -/
def architectureIndicators : List RE :=
  [rphrase ["not", "embedded"],
   rphrase ["sits", "on", "top"],
   rphrase ["connects", "to"],
   rphrase ["integrates", "with"],
   rphrase ["standalone", "platform", "that"],
   rphrase ["standalone", "that"],
   rphrase ["sits", "on", "top", "of"],
   .seq .wb (.seq (rlit "positioned") (.seq rws (.seq (reAltList [rlit "on", rlit "above", rlit "over"]) .wb))),
   .seq .wb (.seq (rlit "layer") (.seq rws (.seq (reAltList [rlit "on", rlit "above", rlit "over"]) .wb))),
   .seq .wb (.seq (rlit "architecture") (.seq rws (.seq (reAltList [rlit "of", rlit "for"]) .wb))),
   .seq .wb (.seq (rlit "how") (.seq rws (.seq rdotStar (.seq rws (.seq (rlit "works") .wb))))),
   .seq .wb (.seq (rlit "how") (.seq rws (.seq rdotStar (.seq rws (.seq (rlit "integrates") .wb))))),
   .seq .wb (.seq (rlit "integration") (.seq rws (.seq (reAltList [rlit "with", rlit "to", rlit "into"]) .wb))),
   .seq .wb (.seq (rlit "deployed") (.seq rws (.seq (reAltList [rlit "on", rlit "to", rlit "in"]) .wb))),
   rphrase ["runs", "on", "top", "of"],
   rphrase ["built", "on", "top", "of"]]

/-- Embedding of `comparisonExplanationIndicators` (lines 1646-1670). -/
def comparisonExplanationIndicators : List RE :=
  [rphrase ["difference", "between"],
   rphrase ["differences", "between"],
   .seq .wb (.seq (rlit "vs") (.seq (ropt ".") .wb)),
   rword "versus",
   rphrase ["in", "simple", "terms"],
   rphrase ["compared", "to"],
   .seq .wb (.seq (rlit "comparison") (.seq rws (.seq (reAltList [rlit "of", rlit "between", rlit "with"]) .wb))),
   rword "agentic",
   rphrase ["how", "it", "works"],
   .seq .wb (.seq (rlit "how") (.seq rws (.seq rdotStar (.seq rws (.seq (rlit "works") .wb))))),
   rword "capabilities",
   .seq .wb (.seq (rlit "use") (.seq rws (.seq (rlit "case") (.seq (ropt "s") .wb)))),
   .seq .wb (.seq (rlit "what") (.seq rws (.seq rdotStar (.seq rws (.seq (rlit "does") .wb))))),
   .seq .wb (.seq (rlit "what") (.seq rws (.seq rdotStar (.seq rws (.seq (rlit "can") (.seq rws (.seq (rlit "do") .wb))))))),
   .seq .wb (.seq (rlit "feature") (.seq (ropt "s") (.seq rws (.seq (reAltList [rlit "of", rlit "include"]) .wb)))),
   .seq .wb (.seq (rlit "benefit") (.seq (ropt "s") (.seq rws (.seq (reAltList [rlit "of", rlit "include"]) .wb)))),
   .seq .wb (.seq (rlit "advantage") (.seq (ropt "s") (.seq rws (.seq (reAltList [rlit "of", rlit "over"]) .wb)))),
   .seq .wb (.seq (rlit "disadvantage") (.seq (ropt "s") (.seq rws (.seq (rlit "of") .wb)))),
   rphrase ["pros", "and", "cons"],
   .seq .wb (.seq (rlit "why") (.seq rws (.seq (reAltList [rlit "use", rlit "choose"]) .wb))),
   rphrase ["when", "to", "use"],
   rphrase ["example", "of"],
   .seq .wb (.seq (rlit "example") (.seq (ropt "s") (.seq rws (.seq (reAltList [rlit "include", rlit "are"]) .wb))))]

/-- Embedding of `isBlockedForDefinition` (lines 1703-1715). -/
def isBlockedForDefinition (text : List Char) : Bool :=
  architectureIndicators.any (fun p => reTest p text) ||
  comparisonExplanationIndicators.any (fun p => reTest p text)

/-- The Tier-1 strict definition pattern
`\b${subj}\s+is\s+(a|an|the)\s+` (line 1724). -/
def tier1RE (subj : List Char) : RE :=
  reSeqList [.wb, rlitL subj, rws, rlit "is", rws, altArticle, rws]

/-- Chunk position used by the definition tiers (lines 1739-1740):
`total > 0 ? idx/total : 0`. -/
def chunkPosOf (v2 : List DocumentVector) (c : Chunk) : ℚ :=
  let total := (docVecsOf v2 c.sourceFile).length
  if 0 < total then (c.chunkIndex : ℚ) / (total : ℚ) else 0

/-- Tier-1 candidates (lines 1725-1762): within the first 40% of the
document, matching the strict pattern, and not hard-excluded. -/
def tier1Candidates (subj : List Char) (v2 : List DocumentVector)
    (cands : List Candidate) : List Candidate :=
  cands.filter (fun c =>
    decide (chunkPosOf v2 c.vector.chunk ≤ 2/5) &&
    reTest (tier1RE subj) c.vector.chunk.text &&
    !(isBlockedForDefinition c.vector.chunk.text))

/-- Embedding of `tier2Patterns` (lines 1789-1802). -/
def tier2Patterns (subj : List Char) : List RE :=
  [reSeqList [.wb, rlitL subj, rws, rlit "is", rws, rlit "a", rws, rlit "platform", rws, .seq (rlit "that") .wb],
   reSeqList [.wb, rlitL subj, rws, rlit "is", rws, rlit "a", rws, rlit "solution", rws, .seq (rlit "that") .wb],
   reSeqList [.wb, rlitL subj, rws, rlit "is", rws, rlit "a", rws, rlit "tool", rws, .seq (rlit "that") .wb],
   reSeqList [.wb, rlitL subj, rws, rlit "is", rws, rlit "a", rws, rlit "system", rws, .seq (rlit "that") .wb],
   reSeqList [.wb, rlitL subj, rws, rlit "is", rws, rlit "a", rws, rlit "software", rws, .seq (rlit "that") .wb],
   reSeqList [.wb, rlit "overview", rws, rlit "of", rws, rlitL subj, .wb],
   reSeqList [.wb, rlit "introduction", rws, rlit "to", rws, rlitL subj, .wb],
   reSeqList [.wb, rlit "introducing", rws, rlitL subj, .wb],
   reSeqList [rlit "this", rws, rlit "document", rws, rlit "provides",
              .rep (fun c => c != '.') 0 none, rlitL subj],
   reSeqList [rlit "this", rws, rlit "guide", rws,
              reAltList [rlit "provides", rlit "covers", rlit "explains"],
              .rep (fun c => c != '.') 0 none, rlitL subj],
   reSeqList [.wb, rlit "about", rws, rlitL subj, .wb],
   reSeqList [.wb, rlit "what", rws, rlit "is", rws, rlitL subj,
              .rep (fun c => c != '?') 0 none, rlit "?",
              .rep (fun _ => true) 0 none, rlitL subj, rws, rlit "is", rws]]

/-- Tier-2 acceptance of one chunk (lines 1804-1846): within the first 25% of
the document, not hard-excluded, and some soft pattern matches within the
first 30% of the chunk's own length. -/
def tier2Accepts (subj : List Char) (v2 : List DocumentVector) (c : Candidate) : Bool :=
  let text := c.vector.chunk.text
  decide (chunkPosOf v2 c.vector.chunk ≤ 1/4) &&
  !(isBlockedForDefinition text) &&
  (tier2Patterns subj).any (fun p =>
    match reSearch p text with
    | some il => decide ((il.1 : ℚ) / text.length ≤ 3/10)
    | none => false)

/-- The duplicate removal of Tier-2 (lines 1850-1853): keep a candidate only
at the first position carrying its (chunkIndex, sourceFile) key. -/
def tier2Dedup (l : List Candidate) : List Candidate :=
  (l.enum.filter (fun ic =>
    l.findIdx (fun c =>
      c.vector.chunk.chunkIndex == ic.2.vector.chunk.chunkIndex &&
      c.vector.chunk.sourceFile == ic.2.vector.chunk.sourceFile) = ic.1)).map Prod.snd

def tier2Candidates (subj : List Char) (v2 : List DocumentVector)
    (cands : List Candidate) : List Candidate :=
  tier2Dedup (cands.filter (fun c => tier2Accepts subj v2 c))

/-!  Definition synthesis fallback (lines 1886-2192).  -/

/-- The sort of all searched vectors by (document name, chunk index)
(lines 1900-1906). -/
def sortByDocAndIdx (vs : List DocumentVector) : List DocumentVector :=
  vs.mergeSort (fun a b =>
    strLt a.chunk.sourceFile b.chunk.sourceFile ||
    (a.chunk.sourceFile == b.chunk.sourceFile &&
     decide (a.chunk.chunkIndex ≤ b.chunk.chunkIndex)))

/-- The intro-chunk selection loop (lines 1908-1947): skip chunks beyond 30%
of their document or without the subject; a chunk with index 0 is selected
immediately (even over a previously found non-zero chunk); a non-zero chunk
with at most 2 architecture indicators is remembered only if none was found
yet. -/
def bestIntroLoop (subjRE : RE) (posOf : DocumentVector → ℚ) :
    List DocumentVector → Option DocumentVector → Option DocumentVector
  | [], acc => acc
  | v :: rest, acc =>
    if decide (3/10 < posOf v) then bestIntroLoop subjRE posOf rest acc
    else if !(reTest subjRE v.chunk.text) then bestIntroLoop subjRE posOf rest acc
    else if v.chunk.chunkIndex = 0 then some v
    else if (architectureIndicators.filter (fun p => reTest p v.chunk.text)).length ≤ 2 then
      bestIntroLoop subjRE posOf rest (match acc with | none => some v | some a => some a)
    else bestIntroLoop subjRE posOf rest acc

def bestIntroChunk (subj : List Char) (v2 vts : List DocumentVector) :
    Option DocumentVector :=
  bestIntroLoop (.seq .wb (.seq (rlitL subj) .wb)) (fun v => chunkPosOf v2 v.chunk)
    (sortByDocAndIdx vts) none

/-- Embedding of `categoryPatterns` (lines 1960-1975). -/
def categoryPatterns : List RE :=
  [rphrase ["process", "intelligence"],
   rphrase ["process", "mining"],
   rphrase ["execution", "management"],
   .seq .wb (.seq (rlit "business") (.seq rws (.seq (rlit "process") (.seq rws
     (.seq (reAltList [rlit "management", rlit "automation", rlit "optimization"]) .wb))))),
   .seq .wb (.seq (rlit "enterprise") (.seq rws
     (.seq (reAltList [rlit "platform", rlit "software", rlit "solution"]) .wb))),
   .seq .wb (.seq (rlit "analytics") (.seq rws
     (.seq (reAltList [rlit "platform", rlit "software", rlit "solution"]) .wb))),
   .seq .wb (.seq (rlit "data") (.seq rws
     (.seq (reAltList [rlit "platform", rlit "analytics"]) .wb))),
   .seq .wb (.seq (rlit "automation") (.seq rws
     (.seq (reAltList [rlit "platform", rlit "software", rlit "solution"]) .wb))),
   .seq .wb (.seq (rlit "intelligence") (.seq rws
     (.seq (reAltList [rlit "platform", rlit "software", rlit "solution"]) .wb))),
   rword "platform", rword "software", rword "solution", rword "tool", rword "system"]

/-- The collected category matches (lines 1977-1989): each pattern's full
match, lower-cased and trimmed, first occurrences only, in pattern order. -/
def foundCategoriesOf (text : List Char) : List (List Char) :=
  categoryPatterns.foldl
    (fun acc p =>
      match reMatchedText p text with
      | some m =>
        let mt := trimWS (lowerStr m)
        if acc.contains mt then acc else acc ++ [mt]
      | none => acc)
    []

/-- The category composition (lines 1992-2007): sort found categories by
length (longest first, stable), combine the primary with a non-overlapping
secondary when the primary is short. -/
def categoryOf (text : List Char) : List Char :=
  let found := foundCategoriesOf text
  if found.length = 0 then []
  else
    let sorted := found.mergeSort (fun a b => decide (b.length ≤ a.length))
    let primary := sorted.headD []
    let secondary := ((sorted.drop 1).take 2).filter
      (fun c => !(containsSub c primary) && !(containsSub primary c))
    if secondary.length ≠ 0 && decide (primary.length < 25) then
      primary ++ String.toList " and " ++ secondary.headD []
    else primary

/-- Group extraction for a purpose pattern ending in a greedy `([^.]+)` group:
run the prefix with the backtracking engine and hand the continuation the
greedy non-dot run, exactly the JavaScript backtracking behaviour. -/
def prefixGroupAt (pre : RE) (prev : Option Char) (s : List Char) : Option (List Char) :=
  reRun pre prev s (fun _ rest =>
    let g := rest.takeWhile (fun c => c != '.')
    if g.isEmpty then none else some g)

/-- Leftmost-position search for `prefixGroupAt`. -/
def prefixGroupSearch (pre : RE) : Option Char → List Char → Option (List Char)
  | prev, s =>
    match prefixGroupAt pre prev s with
    | some g => some g
    | none =>
      match s with
      | [] => none
      | c :: cs => prefixGroupSearch pre (some c) cs

def prefixGroup (pre : RE) (s : List Char) : Option (List Char) :=
  prefixGroupSearch pre none s

def altAudience : RE :=
  reAltList [.seq (rlit "organization") (ropt "s"), .seq (rlit "companie") (ropt "s"),
             .seq (rlit "businesse") (ropt "s"), .seq (rlit "enterprise") (ropt "s")]

/-- Strip one trailing `ch` (and the whitespace after it) from the end:
`replace(/,\s*$/, '')` and `replace(/\.\s*$/, '')`. -/
def stripEndCh (ch : Char) (l : List Char) : List Char :=
  match l.reverse.dropWhile isSpaceChar with
  | c :: rest => if c = ch then rest.reverse else l
  | [] => l

/-- The purpose-text cleanup (lines 2035-2039): collapse whitespace, strip a
trailing comma, strip a trailing dot, trim. -/
def cleanPurpose (t : List Char) : List Char :=
  trimWS (stripEndCh '.' (stripEndCh ',' (collapseWS t)))

/-- Length gate of the purpose loop (line 2042). -/
def purposeGate (raw : Option (List Char)) : Option (List Char) :=
  match raw with
  | some t =>
    let t2 := cleanPurpose t
    if decide (10 ≤ t2.length) && decide (t2.length ≤ 150) then some t2 else none
  | none => none

/-- Embedding of `purposePatterns` and the capture selection (lines
2013-2050), one extractor per pattern in source order.  The sixth pattern,
`provides?\s+([^.]+?)\s+(for|to)\s+(organizations?|...)`, captures the
literal `for` or `to` (its `match[2]`), which is always shorter than the
10-character gate, so it can never set the purpose; it is embedded as the
constant `none`. -/
def purposeOf (text : List Char) : Option (List Char) :=
  let e1 := prefixGroup (reSeqList [rlit "help", ropt "s", rws, altAudience, rws]) text
  let e2 := prefixGroup (reSeqList [rlit "enable", ropt "s", rws, altAudience, rws,
                                    rlit "to", rws]) text
  let e3 := prefixGroup (reSeqList [rlit "allow", ropt "s", rws, altAudience, rws,
                                    rlit "to", rws]) text
  let e4 := prefixGroup (reSeqList [rlit "used", rws, rlit "to", rws]) text
  let e5 := prefixGroup (reSeqList [rlit "designed", rws, rlit "to", rws]) text
  let e6 : Option (List Char) := none
  let e7 := prefixGroup (reSeqList [rlit "analyze", ropt "s", rws]) text
  let e8 := prefixGroup (reSeqList [rlit "understand", rws, rlit "and", rws]) text
  let e9 := prefixGroup (reSeqList [rlit "improve", rws]) text
  let e10 := prefixGroup (reSeqList [rlit "optimize", rws]) text
  let e11 := prefixGroup (reSeqList [rlit "covering", rws, rlit "its", rws]) text
  [purposeGate e1, purposeGate e2, purposeGate e3, purposeGate e4, purposeGate e5,
   purposeGate e6, purposeGate e7, purposeGate e8, purposeGate e9, purposeGate e10,
   purposeGate e11].findSome? id

/-- Embedding of `domainPatterns` (lines 2054-2072). -/
def domainPatterns : List RE :=
  [rphrase ["process", "mining"],
   rphrase ["process", "intelligence"],
   rphrase ["execution", "management"],
   rphrase ["operational", "data"],
   rphrase ["enterprise", "data"],
   .seq .wb (.seq (rlit "business") (.seq rws (.seq (rlit "process") (.seq (ropt "es") .wb)))),
   .seq .wb (.seq (rlit "event") (.seq rws (.seq (rlit "log") (.seq (ropt "s") .wb)))),
   rword "erp", rword "crm", rword "sap", rword "salesforce",
   rword "workflow", rword "automation", rword "optimization", rword "analytics",
   rword "ai", rphrase ["machine", "learning"]]

/-- The collected domain keywords (lines 2074-2082): each pattern's match,
lower-cased, first occurrences only. -/
def domainKeywordsOf (text : List Char) : List (List Char) :=
  domainPatterns.foldl
    (fun acc p =>
      match reMatchedText p text with
      | some m =>
        let k := lowerStr m
        if acc.contains k then acc else acc ++ [k]
      | none => acc)
    []

/-- The leading-verb check of the purpose part (line 2108):
`/^(helps?|enables?|allows?|provides?|analyzes?|understand|improve|optimize)/i`. -/
def purposeVerbStart : RE :=
  reAltList [.seq (rlit "help") (ropt "s"), .seq (rlit "enable") (ropt "s"),
             .seq (rlit "allow") (ropt "s"), .seq (rlit "provide") (ropt "s"),
             .seq (rlit "analyze") (ropt "s"), rlit "understand", rlit "improve",
             rlit "optimize"]

/-- The category part of the synthesized answer (lines 2090-2100). -/
def categoryPartOf (text : List Char) : List Char :=
  let category := categoryOf text
  let domainKeywords := domainKeywordsOf text
  let base := if category.length ≠ 0 then category else String.toList "platform"
  if category.length = 0 && domainKeywords.length ≠ 0 then
    let relevant := domainKeywords.filter (fun k =>
      containsSub (String.toList "process") k || containsSub (String.toList "intelligence") k ||
      containsSub (String.toList "mining") k || containsSub (String.toList "analytics") k)
    if relevant.length ≠ 0 then
      List.intercalate (String.toList " and ") (relevant.take 2) ++ String.toList " platform"
    else base
  else base

/-- The purpose part of the synthesized answer (lines 2102-2123). -/
def purposePartOf (text : List Char) : List Char :=
  match purposeOf text with
  | some p =>
    let pp := lowerStr p
    if reTestAt0 purposeVerbStart pp then pp
    else String.toList "helps organizations " ++ pp
  | none =>
    let domainKeywords := domainKeywordsOf text
    let processKeywords := domainKeywords.filter (fun k =>
      containsSub (String.toList "process") k || containsSub (String.toList "business") k)
    let dataKeywords := domainKeywords.filter (fun k =>
      containsSub (String.toList "data") k || containsSub (String.toList "event") k)
    if processKeywords.length ≠ 0 || dataKeywords.length ≠ 0 then
      let dataSource := dataKeywords.headD (String.toList "enterprise data")
      let processTarget := processKeywords.headD (String.toList "business processes")
      String.toList "analyzes " ++ dataSource ++
        String.toList " to help organizations understand and improve " ++ processTarget
    else String.toList "helps organizations analyze and optimize their operations"

/-- The synthesized definition sentence (line 2126):
`"<subject> is a <category> that <purpose>."`. -/
def synthAnswer (subj text : List Char) : List Char :=
  subj ++ String.toList " is a " ++ categoryPartOf text ++ String.toList " that " ++
  purposePartOf text ++ String.toList "."

/-- The synthesized-definition response (lines 2132-2191): fixed confidence
0.70, source = the chosen chunk's document. -/
def synthResponse (subj : List Char) (b : DocumentVector) : Response :=
  { answer := synthAnswer subj b.chunk.text
    source := b.chunk.sourceFile
    confidence := 7/10
    explanation := some (String.toList
      "Definition synthesized due to absence of explicit definition sentence") }

instance : Inhabited Chunk := ⟨⟨[], [], 0⟩⟩

instance : Inhabited DocumentVector := ⟨⟨default, 0⟩⟩

instance : Inhabited Candidate := ⟨⟨default, 0, false, 0, 0, 0, 0, 0, 0, 0, 0⟩⟩

/-- The strict-policy "no clear definition" response (lines 2156-2173). -/
def noClearDefResponse (cands : List Candidate) : Response :=
  { answer := String.toList "No clear definition found in the provided documents."
    source := (cands.headD default).vector.chunk.sourceFile
    confidence := 0
    explanation := some (String.toList
      "Definition query could not be answered - no explicit definition, soft definition, or synthesizable intro content found") }

/-- The Step-7 control flow (lines 1607-2193): for a definition query with a
subject, restrict ranking to Tier-1, else Tier-2; with both empty, return the
synthesized definition or the strict "no clear definition" response.  For
other queries the candidate list passes through unchanged. -/
def defStage (ctx : QueryCtx) (v2 vts : List DocumentVector)
    (cands : List Candidate) : Sum Response (List Candidate) :=
  if ctx.isDefinition then
    match ctx.subject with
    | some subj =>
      if (tier1Candidates subj v2 cands).length ≠ 0 then
        .inr (tier1Candidates subj v2 cands)
      else if (tier2Candidates subj v2 cands).length ≠ 0 then
        .inr (tier2Candidates subj v2 cands)
      else
        match bestIntroChunk subj v2 vts with
        | some b => .inl (synthResponse subj b)
        | none => .inl (noClearDefResponse cands)
    | none => .inr cands
  else .inr cands

/-!  Steps 7.5 / 7.6: data-usage and AI-usage filters (lines 2195-2374).  -/

/-- Embedding of `dataRelatedTerms` (lines 2216-2229). -/
def dataRelatedTerms : List RE :=
  [.seq .wb (.seq (rlit "event") (.seq rws (.seq (rlit "log") (.seq (ropt "s") .wb)))),
   rphrase ["event", "data"],
   .seq .wb (.seq (rlit "case") (.seq rws (.seq (rlit "identifier") (.seq (ropt "s") .wb)))),
   rphrase ["case", "id"],
   .seq .wb (.seq (rlit "activit") (.seq (reAltList [rlit "y", rlit "ies"]) .wb)),
   .seq .wb (.seq (rlit "timestamp") (.seq (ropt "s") .wb)),
   rphrase ["enterprise", "data"],
   rphrase ["operational", "data"],
   rphrase ["transaction", "data"],
   rphrase ["process", "data"],
   .seq .wb (.seq (rlit "data") (.seq rws (.seq (rlit "extract") (.seq (ropt "s") .wb)))),
   .seq .wb (.seq (rlit "data") (.seq rws (.seq (rlit "connector") (.seq (ropt "s") .wb))))]

/-- The per-line test of `/\bwhat\s+is\s+\w+\?\s*$/im` (lines 2237 and 2327):
with the `m` flag the `$` anchors at each line end. -/
def whatIsLineEnd (text : List Char) : Bool :=
  (splitOnChar '\n' text).any (fun line =>
    reTest (reSeqList [.wb, rlit "what", rws, rlit "is", rws, .rep isWordChar 1 none,
                       rlit "?", rwsStar, .eos]) line)

/-- The common intro-chunk indicators of the data-usage filter
(lines 2232-2238). -/
def introIndicatorsUsage (text : List Char) : Bool :=
  reTest (rphrase ["this", "document", "provides"]) text ||
  reTest (rphrase ["platform", "overview"]) text ||
  reTest (rphrase ["detailed", "understanding"]) text ||
  reTest (rphrase ["covering", "its", "purpose"]) text ||
  whatIsLineEnd text

/-- Step 7.5 (lines 2209-2283): for data-usage queries keep only candidates
containing a data-related term and no intro indicator; fall back to the
unfiltered list when none remain. -/
def dataFilterStage (q : List Char) (ctr : List Candidate) : List Candidate :=
  if isDataUsageQuery q then
    let filtered := ctr.filter (fun c =>
      dataRelatedTerms.any (fun p => reTest p c.vector.chunk.text) &&
      !(introIndicatorsUsage c.vector.chunk.text))
    if 0 < filtered.length then filtered else ctr
  else ctr

/-- Embedding of `aiRelatedTerms` (lines 2306-2319). -/
def aiRelatedTerms : List RE :=
  [rword "ai",
   rphrase ["artificial", "intelligence"],
   rphrase ["machine", "learning"],
   rword "ml",
   .seq .wb (.seq (rlit "predict")
     (.seq (.alt (reAltList [rlit "s", rlit "ion", rlit "ive", rlit "ing"]) .eps) .wb)),
   .seq .wb (.seq (rlit "pattern") (.seq (ropt "s") .wb)),
   rphrase ["root", "cause"],
   .seq .wb (.seq (rlit "anomal") (.seq (reAltList [rlit "y", rlit "ies"]) .wb)),
   rword "automation",
   .seq .wb (rlit "algorithm"),
   .seq .wb (.seq (rlit "model")
     (.seq (.alt (reAltList [rlit "s", rlit "ing"]) .eps) .wb)),
   .seq .wb (.seq (rlit "insight") (.seq (ropt "s") .wb))]

/-- The per-line test of `/^celonis\s+[–-]\s+platform\s+overview/im`
(line 2328): with the `m` flag the `^` anchors at each line start. -/
def celonisOverviewLineStart (text : List Char) : Bool :=
  (splitOnChar '\n' text).any (fun line =>
    reTestAt0 (reSeqList [rlit "celonis", rws,
      .cls (fun c => c == '–' || c == '-'), rws, rlit "platform", rws,
      rlit "overview"]) line)

/-- The intro-chunk indicators of the AI-usage filter (lines 2322-2329). -/
def introIndicatorsAI (text : List Char) : Bool :=
  introIndicatorsUsage text || celonisOverviewLineStart text

/-- Step 7.6 (lines 2299-2374). -/
def aiFilterStage (q : List Char) (ctr : List Candidate) : List Candidate :=
  if isAIUsageQuery q then
    let filtered := ctr.filter (fun c =>
      aiRelatedTerms.any (fun p => reTest p c.vector.chunk.text) &&
      !(introIndicatorsAI c.vector.chunk.text))
    if 0 < filtered.length then filtered else ctr
  else ctr

/-!  Steps 8-12: ranking, topic coverage gate, response (lines 2380-2550).  -/

/-- Step 8 (line 2381): stable sort by final score, descending. -/
def rankCandidates (ctr : List Candidate) : List Candidate :=
  ctr.mergeSort (fun a b => decide (b.finalScore ≤ a.finalScore))

/-- The stop-word set of the topic coverage check (lines 2424-2440). -/
def topicStopWords : List (List Char) :=
  ["what", "how", "where", "when", "why", "who", "which", "whom",
   "is", "are", "was", "were", "be", "been", "being",
   "have", "has", "had", "do", "does", "did", "done",
   "the", "a", "an", "and", "or", "but", "in", "on", "at", "to", "for",
   "of", "with", "by", "from", "as", "into", "through", "during",
   "can", "could", "will", "would", "shall", "should", "may", "might", "must",
   "this", "that", "these", "those", "it", "its",
   "i", "you", "he", "she", "we", "they", "me", "him", "her", "us", "them",
   "my", "your", "his", "our", "their",
   "about", "after", "before", "between", "under", "over", "above", "below",
   "all", "any", "both", "each", "few", "more", "most", "other", "some",
   "such", "no", "not", "only", "same", "so", "than", "too", "very",
   "just", "also", "now", "here", "there", "then", "once",
   "explain", "tell", "show", "give", "find", "get", "make", "know",
   "actually", "really", "please", "help"].map String.toList

/-- The stemmer of the topic check (line 2472): sequentially strip `s`, `es`,
`ing`, `ed`. -/
def stemTopic (w : List Char) : List Char :=
  let w1 := if [ 's' ].isSuffixOf w then w.take (w.length - 1) else w
  let w2 := if [ 'e', 's' ].isSuffixOf w1 then w1.take (w1.length - 2) else w1
  let w3 := if [ 'i', 'n', 'g' ].isSuffixOf w2 then w2.take (w2.length - 3) else w2
  if [ 'e', 'd' ].isSuffixOf w3 then w3.take (w3.length - 2) else w3

/-- A topic word is found in the document text (lines 2470-2475):
word-boundary match, or prefix match of its stem when the stem is longer than
3 characters. -/
def topicWordFound (w docText : List Char) : Bool :=
  reTest (rwordL w) docText ||
  (let st := stemTopic w
   decide (3 < st.length) && reTest (.seq .wb (rlitL st)) docText)

/-- The topic words of the query (lines 2444-2453): non-stop-words, excluding
the primary entity and words shorter than 3 characters. -/
def topicWordsOf (ctx : QueryCtx) : List (List Char) :=
  ctx.queryWords.filter (fun w =>
    let wl := lowerStr w
    !(topicStopWords.contains wl) &&
    !(match ctx.primaryEntity with
      | some e => wl == lowerStr (lowerStr e)
      | none => false) &&
    decide (3 ≤ wl.length))

/-- The document text the topic check scans (lines 2461-2464): the
normalized texts of the searched vectors of the winning document, joined by
spaces. -/
def topicDocText (vts : List DocumentVector) (best : Candidate) : List Char :=
  List.intercalate [' ']
    ((vts.filter (fun v => v.chunk.sourceFile == best.vector.chunk.sourceFile)).map
      (fun v => normalizeTextForMatching v.chunk.text))

/-- The topic words missing from the winning document (lines 2466-2482). -/
def topicMissing (ctx : QueryCtx) (vts : List DocumentVector) (best : Candidate) :
    List (List Char) :=
  (topicWordsOf ctx).filter (fun w => !(topicWordFound w (topicDocText vts best)))

/-- The "no information about topic" response (lines 2501-2506). -/
def topicFailResponse (ctx : QueryCtx) (best : Candidate)
    (missing : List (List Char)) : Response :=
  { answer := String.toList "No information about " ++ [Char.ofNat 34] ++
      List.intercalate (String.toList ", ") missing ++ [Char.ofNat 34] ++
      String.toList " found in the documents" ++
      (match ctx.primaryEntity with
       | some e => String.toList " about " ++ e
       | none => []) ++ String.toList "."
    source := best.vector.chunk.sourceFile
    confidence := 0
    explanation := some (String.toList "The document contains information about " ++
      (ctx.primaryEntity.getD (String.toList "the subject")) ++
      String.toList " but not about the specific topic: " ++
      List.intercalate (String.toList ", ") missing) }

/-- Step 9.5, the topic coverage gate (lines 2420-2515): for a non-definition
query of at least two words whose topic words are all absent from the winning
document, with keyword coverage below 0.66 and similarity below 0.85, the
request is rejected with a "no information about topic" response. -/
def topicGate (ctx : QueryCtx) (vts : List DocumentVector) (best : Candidate) :
    Option Response :=
  if !ctx.isDefinition && decide (2 ≤ ctx.queryWords.length) then
    if 0 < (topicWordsOf ctx).length then
      if (topicMissing ctx vts best).length = (topicWordsOf ctx).length &&
         !(decide ((66:ℚ)/100 ≤ best.keywordCoverage)) &&
         !(decide ((85:ℚ)/100 ≤ best.semanticSimilarity)) then
        some (topicFailResponse ctx best (topicMissing ctx vts best))
      else none
    else none
  else none

/-- Step 11 (line 2543) with the rounding of Step 12 (line 2549):
`Math.round(min(1, finalScore/3.1) * 100) / 100`; `Math.round x = ⌊x + 1/2⌋`. -/
def confidenceOf (finalScore : ℚ) : ℚ :=
  ((⌊min 1 (finalScore / (31/10)) * 100 + 1/2⌋ : ℤ) : ℚ) / 100

/-- The "no documents" response (lines 504-511). -/
def noDocsResponse : Response :=
  { answer := String.toList
      "No documents have been uploaded yet. Please upload documents first before searching."
    source := [], confidence := 0, explanation := none }

/-- The "no clear comparison" response (lines 911-915). -/
def noComparisonResponse : Response :=
  { answer := String.toList "No clear comparison found in the provided documents."
    source := [], confidence := 0, explanation := none }

/-- The "no candidates" response (lines 2395-2399). -/
def noRelevantResponse : Response :=
  { answer := String.toList "No relevant information found in the uploaded documents."
    source := [], confidence := 0, explanation := none }

/-- The guard and preparation stages of the handler (lines 481-1259): query
validation, the no-documents early return, the comparison Steps 2.5-2.7, the
query context, the document-level filter and the candidate scoring.  `.inl`
carries an early result. -/
def pipelinePrep (q : List Char) (store : List DocumentVector) :
    Sum (Except (List Char) Response)
        (QueryCtx × List DocumentVector × List DocumentVector × List Candidate) :=
  if (trimWS q).length = 0 then
    .inl (.error (String.toList "Query is required and must be a non-empty string"))
  else if store.length = 0 then .inl (.ok noDocsResponse)
  else
    match step27 q (step26 q (step25 q store)) with
    | none => .inl (.ok noComparisonResponse)
    | some v2 =>
      let ctx := mkQueryCtx q
      let vts := docFilterStage ctx.primaryEntity v2
      .inr (ctx, v2, vts, buildCandidates ctx v2 vts)

/-- Steps 7.5-8: intent filters followed by the score ranking. -/
def rankedAfterFilters (q : List Char) (ctr : List Candidate) : List Candidate :=
  rankCandidates (aiFilterStage q (dataFilterStage q ctr))

/-- The end-to-end search handler (`router.post('/')`, lines 481-2556),
composed from the stage functions above.  The snippet extractor of Step 10 (a
collaborator never constrained by the claims under study) is abstracted as
the function argument `extractSnippet`; the `.error` result models the HTTP
400 on a blank query. -/
def searchHandler (q : List Char) (store : List DocumentVector)
    (extractSnippet : Chunk → List (List Char) → List Char) :
    Except (List Char) Response :=
  match pipelinePrep q store with
  | .inl r => r
  | .inr (ctx, v2, vts, cands) =>
    match defStage ctx v2 vts cands with
    | .inl r => .ok r
    | .inr ctr =>
      match rankedAfterFilters q ctr with
      | [] => .ok noRelevantResponse
      | best :: _ =>
        match topicGate ctx vts best with
        | some r => .ok r
        | none =>
          .ok { answer := extractSnippet best.vector.chunk ctx.queryWords
                source := best.vector.chunk.sourceFile
                confidence := confidenceOf best.finalScore
                explanation := none }

/-!  Concrete stores and a trivial snippet extractor used by the concrete
theorems below.  The similarity values are cosine values in [-1,1] that an
adversarial store/query embedding can produce.  -/

def snipEmpty : Chunk → List (List Char) → List Char := fun _ _ => []

def mkVec (txt src : String) (i : Nat) (s : ℚ) : DocumentVector :=
  ⟨⟨txt.toList, src.toList, i⟩, s⟩

def pricingStore : List DocumentVector :=
  [mkVec "Acme intro." "doc.txt" 0 (-9/10),
   mkVec "pricing details for acme" "doc.txt" 1 (-1/2)]

instance : DecidableEq (Except (List Char) Response) := fun a b =>
  match a, b with
  | .error x, .error y => decidable_of_iff (x = y) (by simp)
  | .ok x, .ok y => decidable_of_iff (x = y) (by simp)
  | .error _, .ok _ => isFalse (by simp)
  | .ok _, .error _ => isFalse (by simp)

/-!  Claim C1: confidence range.  -/

theorem confidenceOf_le_one (x : ℚ) : confidenceOf x ≤ 1 := by
  unfold confidenceOf
  rw [div_le_one (by norm_num : (0:ℚ) < 100)]
  have h1 : min 1 (x / (31/10)) * 100 + 1/2 ≤ 201/2 := by
    have hm := min_le_left 1 (x / (31/10))
    nlinarith
  have h2 : (⌊min 1 (x / (31/10)) * 100 + 1/2⌋ : ℤ) ≤ 100 := by
    have h3 := Int.floor_le_floor h1
    have h4 : (⌊(201:ℚ)/2⌋ : ℤ) = 100 := by norm_num
    omega
  exact_mod_cast h2

theorem pipelinePrep_inl_conf (q : List Char) (store : List DocumentVector)
    (x : Except (List Char) Response) (h : pipelinePrep q store = .inl x) :
    ∀ r, x = .ok r → r.confidence ≤ 1 := by
  unfold pipelinePrep at h
  split at h
  · cases h
    intro r hr
    cases hr
  · split at h
    · cases h
      intro r hr
      cases hr
      norm_num [noDocsResponse]
    · split at h
      · cases h
        intro r hr
        cases hr
        norm_num [noComparisonResponse]
      · exact Sum.noConfusion h

theorem defStage_inl_conf (ctx : QueryCtx) (v2 vts : List DocumentVector)
    (cands : List Candidate) (r : Response)
    (h : defStage ctx v2 vts cands = .inl r) : r.confidence ≤ 1 := by
  unfold defStage at h
  split at h
  · split at h
    · split at h
      · exact Sum.noConfusion h
      · split at h
        · exact Sum.noConfusion h
        · split at h
          · cases h
            norm_num [synthResponse]
          · cases h
            norm_num [noClearDefResponse]
    · exact Sum.noConfusion h
  · exact Sum.noConfusion h

theorem topicGate_conf (ctx : QueryCtx) (vts : List DocumentVector)
    (best : Candidate) (r : Response) (h : topicGate ctx vts best = some r) :
    r.confidence = 0 := by
  unfold topicGate at h
  split at h
  · split at h
    · split at h
      · cases h
        rfl
      · exact Option.noConfusion h
    · exact Option.noConfusion h
  · exact Option.noConfusion h

/-- C1 amended: every response of the search endpoint has confidence at most
1 (the normal-path confidence is capped at 1.0, the early-exit confidences
are 0 or 0.70); but the lower bound 0 of the claim does not hold, because
penalties (and negative cosine similarity) can drive the top candidate's
finalScore, and hence min(1, finalScore/3.1), below zero. -/
theorem C1_amended (q : List Char) (store : List DocumentVector)
    (snip : Chunk → List (List Char) → List Char) (r : Response)
    (h : searchHandler q store snip = .ok r) : r.confidence ≤ 1 := by
  unfold searchHandler at h
  rcases hp : pipelinePrep q store with x | ⟨ctx, v2, vts, cands⟩
  · rw [hp] at h
    exact pipelinePrep_inl_conf q store x hp r h
  · rw [hp] at h
    dsimp only at h
    rcases hd : defStage ctx v2 vts cands with rr | ctr
    · rw [hd] at h
      dsimp only at h
      cases h
      exact defStage_inl_conf ctx v2 vts cands _ hd
    · rw [hd] at h
      dsimp only at h
      rcases hr : rankedAfterFilters q ctr with _ | ⟨best, rest⟩
      · rw [hr] at h
        cases h
        norm_num [noRelevantResponse]
      · rw [hr] at h
        dsimp only at h
        rcases ht : topicGate ctx vts best with _ | rr2
        · rw [ht] at h
          cases h
          exact confidenceOf_le_one _
        · rw [ht] at h
          cases h
          rw [topicGate_conf ctx vts best _ ht]
          norm_num

/-- Witness for C1_amended at a concrete input (the no-documents early
exit). -/
theorem C1_amended_witness : noDocsResponse.confidence ≤ 1 :=
  C1_amended (String.toList "Acme pricing") [] snipEmpty noDocsResponse
    (by with_unfolding_all decide)

/-- C1 counterexample: for the query "Acme pricing" over a store whose two
chunks have cosine similarities -0.9 and -0.5 against the query embedding,
the normal ranking path returns confidence -0.06 < 0, so the endpoint's
confidence is not always in [0,1] and min(1, finalScore/3.1) is not always
nonnegative. -/
theorem C1_counterexample :
    searchHandler (String.toList "Acme pricing") pricingStore snipEmpty =
      .ok { answer := [], source := String.toList "doc.txt",
            confidence := -3/50, explanation := none } ∧
    (-3/50 : ℚ) < 0 := by
  constructor
  · with_unfolding_all decide
  · norm_num

/-!  Claim C2: tier-1 strictness for definition queries.  -/

/-- Modelled from the claim's wording: a corpus chunk is a "Tier-1 match"
when it lies within the first 40% of its document, contains the literal
pattern "subject is a|an|the ", and is not hard-excluded.  (The code's
tier-1 set is instead drawn from the admitted candidates of the
document-filtered vectors; this claim-side predicate ranges over the whole
store.) -/
def corpusTier1Match (subj : List Char) (store : List DocumentVector)
    (v : DocumentVector) : Bool :=
  decide (chunkPosOf store v.chunk ≤ 2/5) &&
  reTest (tier1RE subj) v.chunk.text &&
  !(isBlockedForDefinition v.chunk.text)

/-- A store with a corpus-wide Tier-1 chunk (notes.txt, chunk 2) inside a
document that the document-level relevance filter discards for the entity
"Acme" (no mention in the filename, title chunk or first 15% of chunks),
next to a relevant document without any Tier-1 chunk. -/
def notesBetaStore : List DocumentVector :=
  [mkVec "General notes about tools." "notes.txt" 0 0,
   mkVec "Basics of planning." "notes.txt" 1 0,
   mkVec "Acme is a tool for teams." "notes.txt" 2 0,
   mkVec "More details here." "notes.txt" 3 0,
   mkVec "Another section." "notes.txt" 4 0,
   mkVec "Extra content." "notes.txt" 5 0,
   mkVec "Final words." "notes.txt" 6 0,
   mkVec "Acme overview for teams." "beta.txt" 0 0]

def synthPlatformAnswer : List Char :=
  String.toList
    "Acme is a platform that helps organizations analyze and optimize their operations."

def synthExplanationText : List Char :=
  String.toList "Definition synthesized due to absence of explicit definition sentence"

/-- C2 counterexample: the corpus contains a Tier-1 match (notes.txt chunk 2,
"Acme is a tool for teams.", at 28.6% of its document, not hard-excluded),
yet the query "What is Acme?" is answered by the synthesis fallback from
beta.txt, because the document-level filter removes notes.txt before the
tier-1 scan ever sees it.  The returned source chunk is not in the claim's
Tier-1 set. -/
theorem C2_counterexample :
    (∃ v ∈ notesBetaStore,
      corpusTier1Match (String.toList "Acme") notesBetaStore v = true) ∧
    searchHandler (String.toList "What is Acme?") notesBetaStore snipEmpty =
      .ok { answer := synthPlatformAnswer, source := String.toList "beta.txt",
            confidence := 7/10, explanation := some synthExplanationText } ∧
    (∀ v ∈ notesBetaStore,
      corpusTier1Match (String.toList "Acme") notesBetaStore v = true →
      v.chunk.sourceFile ≠ String.toList "beta.txt") := by
  refine ⟨?_, ?_, ?_⟩ <;> with_unfolding_all decide

/-- The tier-1 candidate list the pipeline actually computes for a request
(empty when the query is not a definition query with a subject, or on an
early exit). -/
def pipelineTier1 (q : List Char) (store : List DocumentVector) : List Candidate :=
  match pipelinePrep q store with
  | .inr (ctx, v2, _, cands) =>
    if ctx.isDefinition then
      match ctx.subject with
      | some subj => tier1Candidates subj v2 cands
      | none => []
    else []
  | .inl _ => []

theorem pipelinePrep_inr (q : List Char) (store : List DocumentVector)
    (ctx : QueryCtx) (v2 vts : List DocumentVector) (cands : List Candidate)
    (h : pipelinePrep q store = .inr (ctx, v2, vts, cands)) :
    ctx = mkQueryCtx q ∧ vts = docFilterStage ctx.primaryEntity v2 ∧
    cands = buildCandidates ctx v2 vts := by
  unfold pipelinePrep at h
  split at h
  · exact Sum.noConfusion h
  · split at h
    · exact Sum.noConfusion h
    · split at h
      · exact Sum.noConfusion h
      · cases h
        exact ⟨rfl, rfl, rfl⟩

theorem mkQueryCtx_isDefinition (q : List Char) :
    (mkQueryCtx q).isDefinition = isDefinitionDetect q := rfl

theorem mkQueryCtx_queryWords (q : List Char) :
    (mkQueryCtx q).queryWords = queryWordsOf q := rfl

/-- C2 amended: if at least one admitted candidate of the document-filtered
vector set is a Tier-1 match (the pipeline's own tier-1 list is non-empty),
then ranking is restricted to exactly that list and the response is built
from its top-ranked element: the answer's source chunk comes from the Tier-1
set and no general-ranking fallback (and no tier-2/synthesis path) is
exercised. -/
theorem C2_amended (q : List Char) (store : List DocumentVector)
    (snip : Chunk → List (List Char) → List Char)
    (h : pipelineTier1 q store ≠ []) :
    ∃ best ∈ pipelineTier1 q store,
      (rankCandidates (pipelineTier1 q store)).head? = some best ∧
      searchHandler q store snip =
        .ok { answer := snip best.vector.chunk (queryWordsOf q)
              source := best.vector.chunk.sourceFile
              confidence := confidenceOf best.finalScore
              explanation := none } := by
  unfold pipelineTier1 at h ⊢
  unfold searchHandler
  rcases hp : pipelinePrep q store with x | ⟨ctx, v2, vts, cands⟩
  · rw [hp] at h
    simp at h
  · rw [hp] at h
    dsimp only at h ⊢
    obtain ⟨hctx, hvts, hcands⟩ := pipelinePrep_inr q store ctx v2 vts cands hp
    rcases hdef : ctx.isDefinition with _ | _
    · rw [hdef] at h
      simp at h
    · rw [hdef] at h
      rw [if_pos rfl] at h ⊢
      rcases hsub : ctx.subject with _ | subj
      · rw [hsub] at h
        simp at h
      · rw [hsub] at h
        dsimp only at h ⊢
        have hdetect : isDefinitionDetect q = true := by
          rw [← mkQueryCtx_isDefinition q, ← hctx]
          exact hdef
        have hlen : (tier1Candidates subj v2 cands).length ≠ 0 :=
          fun hl => h (List.length_eq_zero.mp hl)
        have hdefstage : defStage ctx v2 vts cands = .inr (tier1Candidates subj v2 cands) := by
          unfold defStage
          rw [hdef, if_pos rfl, hsub]
          dsimp only
          rw [if_pos hlen]
        rw [hdefstage]
        dsimp only
        have hdd : isDataUsageQuery q = false := by
          simp [isDataUsageQuery, hdetect]
        have hai : isAIUsageQuery q = false := by
          simp [isAIUsageQuery, hdetect]
        have hfilters : rankedAfterFilters q (tier1Candidates subj v2 cands) =
            rankCandidates (tier1Candidates subj v2 cands) := by
          unfold rankedAfterFilters dataFilterStage aiFilterStage
          rw [hdd, hai]
          simp
        rw [hfilters]
        have hranklen : (rankCandidates (tier1Candidates subj v2 cands)).length ≠ 0 := by
          unfold rankCandidates
          rw [(List.mergeSort_perm (tier1Candidates subj v2 cands) _).length_eq]
          exact hlen
        rcases hrank : rankCandidates (tier1Candidates subj v2 cands) with _ | ⟨best, rest⟩
        · rw [hrank] at hranklen
          simp at hranklen
        · dsimp only
          have hmem : best ∈ tier1Candidates subj v2 cands := by
            have hb : best ∈ rankCandidates (tier1Candidates subj v2 cands) := by
              rw [hrank]
              exact List.mem_cons_self _ _
            unfold rankCandidates at hb
            exact List.mem_mergeSort.mp hb
          have hgate : topicGate ctx vts best = none := by
            unfold topicGate
            rw [hdef]
            simp
          rw [hgate]
          refine ⟨best, hmem, rfl, ?_⟩
          rw [hctx]
          rfl

def qC2W : List Char := String.toList "What is Acme?"

def storeC2W : List DocumentVector :=
  [mkVec "Acme is a tool for planning teams." "doc.txt" 0 (1/2)]

/-- Witness for C2 amended: on a one-document store whose only chunk is a
Tier-1 match for the query "What is Acme?", the tier-1 list is non-empty and
the handler answers from its top-ranked element. -/
theorem C2_amended_witness :
    pipelineTier1 qC2W storeC2W ≠ [] ∧
    ∃ best ∈ pipelineTier1 qC2W storeC2W,
      (rankCandidates (pipelineTier1 qC2W storeC2W)).head? = some best ∧
      searchHandler qC2W storeC2W snipEmpty =
        .ok { answer := snipEmpty best.vector.chunk (queryWordsOf qC2W)
              source := best.vector.chunk.sourceFile
              confidence := confidenceOf best.finalScore
              explanation := none } :=
  ⟨by with_unfolding_all decide,
   C2_amended qC2W storeC2W snipEmpty (by with_unfolding_all decide)⟩

/- ### C4: comparison contrast bonus vs final ranking -/

/-- Whenever `scoreChunk` admits a chunk, the candidate's `finalScore` is the
sum of its component fields, and its `comparisonBonus` is the first component
of `comparisonScores` at the chunk's position. -/
theorem scoreChunk_fields (ctx : QueryCtx) (total : Nat) (v : DocumentVector)
    (c : Candidate) (h : scoreChunk ctx total v = some c) :
    c.finalScore = c.semanticSimilarity + c.keywordCoverage * (3/10) + c.positionBonus +
      c.explicitTermBonus + c.definitionBonus + c.definitionPenalty +
      c.comparisonBonus + c.comparisonIntroPenalty ∧
    c.comparisonBonus =
      (comparisonScores ctx.query ctx.isDefinition v.chunk.text
        ((v.chunk.chunkIndex : ℚ) / (total : ℚ))).1 := by
  unfold scoreChunk at h
  dsimp only at h
  split at h
  · exact Option.noConfusion h
  · injection h with h
    subst h
    exact ⟨rfl, rfl⟩

/-- With comparison scoring active, a chunk with contrast language receives a
comparison bonus of at least 0.2. -/
theorem comparisonScores_contrast_ge (q text : List Char) (pos : ℚ)
    (h1 : isComparisonQueryForScoring q = true)
    (h2 : isDataQueryForComparison q = false)
    (h3 : isAIQueryForComparison q = false)
    (hc : contrastLanguagePatterns.any (fun p => reTest p text) = true) :
    1/5 ≤ (comparisonScores q false text pos).1 := by
  unfold comparisonScores
  rw [h1, h2, h3]
  simp only [Bool.not_false, Bool.and_true, Bool.true_and, if_true]
  rw [hc]
  simp only [Bool.true_or, Bool.true_and]
  split
  · norm_num
  · split
    · norm_num
    · norm_num

/-- With comparison scoring active, a chunk matching none of the contrast,
dual-framing or explicit-dual-entity patterns receives exactly the -0.4
comparison bonus. -/
theorem comparisonScores_noterms (q text : List Char) (pos : ℚ)
    (h1 : isComparisonQueryForScoring q = true)
    (h2 : isDataQueryForComparison q = false)
    (h3 : isAIQueryForComparison q = false)
    (hc : contrastLanguagePatterns.any (fun p => reTest p text) = false)
    (hd : dualFramingPatterns.any (fun p => reTest p text) = false)
    (he : explicitDualEntityPatterns.any (fun p => reTest p text) = false) :
    (comparisonScores q false text pos).1 = -2/5 := by
  unfold comparisonScores
  rw [h1, h2, h3]
  simp only [Bool.not_false, Bool.and_true, Bool.true_and, if_true]
  rw [hc, hd, he]
  simp

def qC4 : List Char := String.toList "compare Acme and Beta"

def ctxC4 : QueryCtx := mkQueryCtx qC4

def vA4 : DocumentVector := mkVec "However, Acme differs." "d.txt" 3 0

def vB4 : DocumentVector := mkVec "Acme and Beta compare notes daily." "d.txt" 2 (9/10)

/-- C4 counterexample: on the comparison query "compare Acme and Beta", chunk
A ("However, Acme differs.") has contrast language and chunk B ("Acme and
Beta compare notes daily.") matches none of the contrast, dual-framing or
explicit-dual patterns, so B takes the -0.4 bonus; yet B outranks A
(finalScore 4/5 vs 11/40) because its similarity and keyword coverage
dominate the bonus gap. -/
theorem C4_counterexample :
    isComparisonQueryForScoring ctxC4.query = true ∧
    ctxC4.isDefinition = false ∧
    contrastLanguagePatterns.any (fun p => reTest p vA4.chunk.text) = true ∧
    contrastLanguagePatterns.any (fun p => reTest p vB4.chunk.text) = false ∧
    dualFramingPatterns.any (fun p => reTest p vB4.chunk.text) = false ∧
    explicitDualEntityPatterns.any (fun p => reTest p vB4.chunk.text) = false ∧
    (scoreChunk ctxC4 4 vA4).map Candidate.finalScore = some (11/40) ∧
    (scoreChunk ctxC4 4 vB4).map Candidate.finalScore = some (4/5) ∧
    ((11 : ℚ)/40 < 4/5) := by
  refine ⟨?_, ?_, ?_, ?_, ?_, ?_, ?_, ?_, ?_⟩ <;> with_unfolding_all decide

/-- C4 amended: on a comparison (non-definition, non-data, non-AI) query, a
chunk with contrast language always gets a strictly larger comparison bonus
(at least 0.2) than a chunk matching none of the comparison patterns (exactly
-0.4); the latter is outranked whenever the sum of its remaining score
components does not exceed that of the former. -/
theorem C4_amended (ctx : QueryCtx) (totalA totalB : Nat) (vA vB : DocumentVector)
    (cA cB : Candidate)
    (hA : scoreChunk ctx totalA vA = some cA)
    (hB : scoreChunk ctx totalB vB = some cB)
    (hq1 : isComparisonQueryForScoring ctx.query = true)
    (hdef : ctx.isDefinition = false)
    (hq2 : isDataQueryForComparison ctx.query = false)
    (hq3 : isAIQueryForComparison ctx.query = false)
    (hcA : contrastLanguagePatterns.any (fun p => reTest p vA.chunk.text) = true)
    (hcB : contrastLanguagePatterns.any (fun p => reTest p vB.chunk.text) = false)
    (hdB : dualFramingPatterns.any (fun p => reTest p vB.chunk.text) = false)
    (heB : explicitDualEntityPatterns.any (fun p => reTest p vB.chunk.text) = false)
    (hother : cB.semanticSimilarity + cB.keywordCoverage * (3/10) + cB.positionBonus +
        cB.explicitTermBonus + cB.definitionBonus + cB.definitionPenalty +
        cB.comparisonIntroPenalty ≤
      cA.semanticSimilarity + cA.keywordCoverage * (3/10) + cA.positionBonus +
        cA.explicitTermBonus + cA.definitionBonus + cA.definitionPenalty +
        cA.comparisonIntroPenalty) :
    cB.comparisonBonus < cA.comparisonBonus ∧ cB.finalScore < cA.finalScore := by
  obtain ⟨hfA, hbA⟩ := scoreChunk_fields ctx totalA vA cA hA
  obtain ⟨hfB, hbB⟩ := scoreChunk_fields ctx totalB vB cB hB
  rw [hdef] at hbA hbB
  have hgeA : 1/5 ≤ cA.comparisonBonus := by
    rw [hbA]
    exact comparisonScores_contrast_ge ctx.query vA.chunk.text _ hq1 hq2 hq3 hcA
  have heqB : cB.comparisonBonus = -2/5 := by
    rw [hbB]
    exact comparisonScores_noterms ctx.query vB.chunk.text _ hq1 hq2 hq3 hcB hdB heB
  constructor
  · rw [heqB]
    linarith
  · rw [hfA, hfB, heqB]
    linarith

def vB4w : DocumentVector := mkVec "Beta writes notes daily." "d.txt" 3 0

def cA4w : Candidate := ⟨vA4, 0, true, 1/4, 0, 0, 0, 0, 1/5, 0, 11/40⟩

def cB4w : Candidate := ⟨vB4w, 0, true, 1/4, 0, 0, 0, 0, -2/5, 0, -13/40⟩

/-- Witness for C4 amended at concrete chunks of the query
"compare Acme and Beta". -/
theorem C4_amended_witness :
    cB4w.comparisonBonus < cA4w.comparisonBonus ∧ cB4w.finalScore < cA4w.finalScore :=
  C4_amended ctxC4 4 4 vA4 vB4w cA4w cB4w
    (by with_unfolding_all decide) (by with_unfolding_all decide)
    (by with_unfolding_all decide) (by with_unfolding_all decide)
    (by with_unfolding_all decide) (by with_unfolding_all decide)
    (by with_unfolding_all decide) (by with_unfolding_all decide)
    (by with_unfolding_all decide) (by with_unfolding_all decide)
    (by with_unfolding_all decide)

/- ### C5: topic coverage vs definition handling -/

def q5 : List Char :=
  String.toList "What is Acme" ++ [Char.ofNat 39] ++ String.toList "s pricing?"

def store5 : List DocumentVector :=
  [mkVec "Acme intro." "acme.txt" 0 (1/2),
   mkVec "Acme helps teams with workflows." "acme.txt" 1 (2/5)]

def noClearDefAnswerText : List Char :=
  String.toList "No clear definition found in the provided documents."

def noClearDefExplanationText : List Char :=
  String.toList "Definition query could not be answered - no explicit definition, soft definition, or synthesizable intro content found"

/-- C5 counterexample: the corpus mentions "Acme" but never "pricing" or
"cost", yet the query "What is Acme\x27s pricing?" is answered by the strict
no-clear-definition response (the detector classifies it as a definition
query with subject "Acme\x27s pricing"), not by the "no information about
topic" response: the returned answer never names the missing topic word. -/
theorem C5_counterexample :
    (∀ v ∈ store5, containsSub (String.toList "acme") (lowerStr v.chunk.text) = true) ∧
    (∀ v ∈ store5, containsSub (String.toList "pricing") (lowerStr v.chunk.text) = false) ∧
    (∀ v ∈ store5, containsSub (String.toList "cost") (lowerStr v.chunk.text) = false) ∧
    searchHandler q5 store5 snipEmpty =
      .ok { answer := noClearDefAnswerText, source := String.toList "acme.txt",
            confidence := 0, explanation := some noClearDefExplanationText } ∧
    containsSub (String.toList "pricing") noClearDefAnswerText = false := by
  refine ⟨?_, ?_, ?_, ?_, ?_⟩ <;> with_unfolding_all decide

/-- C5 amended: on this corpus (mentioning "Acme" but never "pricing" or
"cost"), the query "What is Acme\x27s pricing?" takes the definition path and
returns the strict no-clear-definition response with confidence 0, for every
snippet extractor; the topic-coverage gate is never consulted. -/
theorem C5_amended (snip : Chunk → List (List Char) → List Char) :
    searchHandler q5 store5 snip =
      .ok { answer := noClearDefAnswerText, source := String.toList "acme.txt",
            confidence := 0, explanation := some noClearDefExplanationText } := by
  with_unfolding_all rfl

/- ### C6: definition synthesis fallback -/

/-- Claim-side selection rule, modelled from the SPEC WORDS of C6 (not from
the source): search all chunks of the store sorted by (document name, chunk
index) and pick the first chunk within the first 30% of its document that
contains the subject and is either chunk 0 or has at most 2 architecture
indicators.  To be compared with the selection the code performs. -/
def claimSynthesisPick (subj : List Char) (store : List DocumentVector) :
    Option DocumentVector :=
  (sortByDocAndIdx store).find? (fun v =>
    decide (chunkPosOf store v.chunk ≤ 3/10) &&
    reTest (.seq .wb (.seq (rlitL subj) .wb)) v.chunk.text &&
    (v.chunk.chunkIndex == 0 ||
     decide ((architectureIndicators.filter (fun p => reTest p v.chunk.text)).length ≤ 2)))

def q6 : List Char := String.toList "What is Acme?"

def ctx6 : QueryCtx := mkQueryCtx q6

def store6 : List DocumentVector :=
  [mkVec "General notes about tools." "alpha.txt" 0 0,
   mkVec "Basics of planning." "alpha.txt" 1 0,
   mkVec "Acme is a tool for teams." "alpha.txt" 2 0,
   mkVec "More details here." "alpha.txt" 3 0,
   mkVec "Another section." "alpha.txt" 4 0,
   mkVec "Extra content." "alpha.txt" 5 0,
   mkVec "Final words." "alpha.txt" 6 0,
   mkVec "Acme overview for teams." "beta.txt" 0 0]

/-- C6 counterexample: on the definition query "What is Acme?", the rule the
claim states (first eligible chunk of ALL chunks sorted by document and
index) picks alpha.txt chunk 2, but the code searches only the
document-filtered vectors, so the synthesized answer comes from beta.txt. -/
theorem C6_counterexample :
    (claimSynthesisPick (String.toList "Acme") store6).map
        (fun v => (v.chunk.sourceFile, v.chunk.chunkIndex)) =
      some (String.toList "alpha.txt", 2) ∧
    searchHandler q6 store6 snipEmpty =
      .ok { answer := synthPlatformAnswer, source := String.toList "beta.txt",
            confidence := 7/10, explanation := some synthExplanationText } := by
  refine ⟨?_, ?_⟩ <;> with_unfolding_all decide

/-- Any chunk returned by the intro-selection loop either was the incoming
accumulator or comes from the scanned list and satisfies the loop's
admission tests: position at most 30%, subject present, and chunk 0 or at
most 2 architecture indicators. -/
theorem bestIntroLoop_sound (subjRE : RE) (posOf : DocumentVector → ℚ)
    (l : List DocumentVector) (acc : Option DocumentVector) (b : DocumentVector)
    (h : bestIntroLoop subjRE posOf l acc = some b) :
    acc = some b ∨
    (b ∈ l ∧ posOf b ≤ 3/10 ∧ reTest subjRE b.chunk.text = true ∧
     (b.chunk.chunkIndex = 0 ∨
      (architectureIndicators.filter (fun p => reTest p b.chunk.text)).length ≤ 2)) := by
  induction l generalizing acc with
  | nil => exact Or.inl h
  | cons v rest ih =>
    unfold bestIntroLoop at h
    split at h
    · rcases ih acc h with h1 | h2
      · exact Or.inl h1
      · exact Or.inr ⟨List.mem_cons_of_mem _ h2.1, h2.2⟩
    · next hposc =>
      have hpos : posOf v ≤ 3/10 := by
        have := of_decide_eq_false (Bool.of_not_eq_true hposc)
        exact le_of_not_lt this
      split at h
      · rcases ih acc h with h1 | h2
        · exact Or.inl h1
        · exact Or.inr ⟨List.mem_cons_of_mem _ h2.1, h2.2⟩
      · next hsubc =>
        have hsubj : reTest subjRE v.chunk.text = true := by
          simpa using hsubc
        split at h
        · next hzero =>
          injection h with h
          subst h
          exact Or.inr ⟨List.mem_cons_self _ _, hpos, hsubj, Or.inl hzero⟩
        · next hnz =>
          split at h
          · next harch =>
            rcases acc with _ | a
            · rcases ih (some v) h with h1 | h2
              · injection h1 with h1
                subst h1
                exact Or.inr ⟨List.mem_cons_self _ _, hpos, hsubj, Or.inr harch⟩
              · exact Or.inr ⟨List.mem_cons_of_mem _ h2.1, h2.2⟩
            · rcases ih (some a) h with h1 | h2
              · exact Or.inl h1
              · exact Or.inr ⟨List.mem_cons_of_mem _ h2.1, h2.2⟩
          · rcases ih acc h with h1 | h2
            · exact Or.inl h1
            · exact Or.inr ⟨List.mem_cons_of_mem _ h2.1, h2.2⟩

/-- C6 amended: when the synthesis fallback fires (definition query with a
subject, both tiers empty, intro chunk b found), the handler stage returns
the synthesized response immediately (bypassing ranking and snippet
extraction), with confidence exactly 0.70, source = b.sourceFile and answer
of the form "subject is a category that purpose."; and b comes from the
DOCUMENT-FILTERED vector set (not from all chunks), lies within the first
30% of its document, contains the subject, and is chunk 0 or has at most 2
architecture indicators. -/
theorem C6_amended (ctx : QueryCtx) (v2 vts : List DocumentVector)
    (cands : List Candidate) (subj : List Char) (b : DocumentVector)
    (hdef : ctx.isDefinition = true) (hsub : ctx.subject = some subj)
    (ht1 : tier1Candidates subj v2 cands = [])
    (ht2 : tier2Candidates subj v2 cands = [])
    (hb : bestIntroChunk subj v2 vts = some b) :
    defStage ctx v2 vts cands = .inl (synthResponse subj b) ∧
    (synthResponse subj b).confidence = 7/10 ∧
    (synthResponse subj b).source = b.chunk.sourceFile ∧
    (synthResponse subj b).answer =
      subj ++ String.toList " is a " ++ categoryPartOf b.chunk.text ++
      String.toList " that " ++ purposePartOf b.chunk.text ++ String.toList "." ∧
    b ∈ vts ∧
    chunkPosOf v2 b.chunk ≤ 3/10 ∧
    reTest (.seq .wb (.seq (rlitL subj) .wb)) b.chunk.text = true ∧
    (b.chunk.chunkIndex = 0 ∨
     (architectureIndicators.filter (fun p => reTest p b.chunk.text)).length ≤ 2) := by
  have hloop := bestIntroLoop_sound _ _ _ _ _ hb
  rcases hloop with h1 | h2
  · exact Option.noConfusion h1
  · refine ⟨?_, rfl, rfl, rfl, ?_, h2.2.1, h2.2.2.1, h2.2.2.2⟩
    · unfold defStage
      rw [hdef, if_pos rfl, hsub]
      dsimp only
      rw [if_neg (by rw [ht1]; simp), if_neg (by rw [ht2]; simp), hb]
    · have hmem := h2.1
      unfold sortByDocAndIdx at hmem
      exact List.mem_mergeSort.mp hmem

def vts6 : List DocumentVector := docFilterStage ctx6.primaryEntity store6

def cands6 : List Candidate := buildCandidates ctx6 store6 vts6

def vBeta6 : DocumentVector := mkVec "Acme overview for teams." "beta.txt" 0 0

/-- Witness for C6 amended on the alpha/beta store: synthesis fires and is
built from beta.txt chunk 0. -/
theorem C6_amended_witness :
    defStage ctx6 store6 vts6 cands6 = .inl (synthResponse (String.toList "Acme") vBeta6) ∧
    (synthResponse (String.toList "Acme") vBeta6).confidence = 7/10 ∧
    (synthResponse (String.toList "Acme") vBeta6).source = vBeta6.chunk.sourceFile ∧
    (synthResponse (String.toList "Acme") vBeta6).answer =
      String.toList "Acme" ++ String.toList " is a " ++ categoryPartOf vBeta6.chunk.text ++
      String.toList " that " ++ purposePartOf vBeta6.chunk.text ++ String.toList "." ∧
    vBeta6 ∈ vts6 ∧
    chunkPosOf store6 vBeta6.chunk ≤ 3/10 ∧
    reTest (.seq .wb (.seq (rlitL (String.toList "Acme")) .wb)) vBeta6.chunk.text = true ∧
    (vBeta6.chunk.chunkIndex = 0 ∨
     (architectureIndicators.filter (fun p => reTest p vBeta6.chunk.text)).length ≤ 2) :=
  C6_amended ctx6 store6 vts6 cands6 (String.toList "Acme") vBeta6
    (by with_unfolding_all decide) (by with_unfolding_all decide)
    (by with_unfolding_all decide) (by with_unfolding_all decide)
    (by with_unfolding_all decide)

/- ### C7: candidate admission rule -/

/-- Any candidate produced by `scoreChunk` passed the admission test: it has
a query keyword, or its semantic similarity is at least 0.80. -/
theorem scoreChunk_admitted (ctx : QueryCtx) (total : Nat) (v : DocumentVector)
    (c : Candidate) (h : scoreChunk ctx total v = some c) :
    c.hasQueryKeywords = true ∨ 4/5 ≤ c.semanticSimilarity := by
  unfold scoreChunk at h
  dsimp only at h
  split at h
  · exact Option.noConfusion h
  · next hcond =>
    injection h with h
    subst h
    simp only [Bool.and_eq_true, Bool.not_eq_true', decide_eq_true_eq, not_and, not_lt]
      at hcond
    dsimp only
    rcases Bool.eq_false_or_eq_true (decide (0 < (ctx.queryWords.filter
        (fun qw => queryWordFound qw (normalizeTextForMatching v.chunk.text))).length))
      with hk | hk
    · exact Or.inl hk
    · exact Or.inr (hcond hk)

theorem mem_enumFrom_snd {α : Type} (l : List α) :
    ∀ (n : Nat) (p : Nat × α), p ∈ l.enumFrom n → p.2 ∈ l := by
  induction l with
  | nil =>
    intro n p h
    simp [List.enumFrom] at h
  | cons a t ih =>
    intro n p h
    rw [List.enumFrom] at h
    rcases List.mem_cons.mp h with h1 | h2
    · subst h1
      exact List.mem_cons_self _ _
    · exact List.mem_cons_of_mem _ (ih _ _ h2)

theorem tier2Dedup_subset (l : List Candidate) : ∀ c ∈ tier2Dedup l, c ∈ l := by
  intro c hc
  unfold tier2Dedup at hc
  rcases List.mem_map.mp hc with ⟨ic, hic, rfl⟩
  exact mem_enumFrom_snd l 0 ic (List.mem_filter.mp hic).1

/-- Every candidate list the definition stage hands to ranking is a subset of
the scored candidate list. -/
theorem defStage_inr_subset (ctx : QueryCtx) (v2 vts : List DocumentVector)
    (cands ctr : List Candidate) (h : defStage ctx v2 vts cands = .inr ctr) :
    ∀ c ∈ ctr, c ∈ cands := by
  unfold defStage at h
  split at h
  · split at h
    · split at h
      · cases h
        intro c hc
        unfold tier1Candidates at hc
        exact (List.mem_filter.mp hc).1
      · split at h
        · cases h
          intro c hc
          unfold tier2Candidates at hc
          exact (List.mem_filter.mp (tier2Dedup_subset _ c hc)).1
        · split at h
          · exact Sum.noConfusion h
          · exact Sum.noConfusion h
    · cases h
      intro c hc
      exact hc
  · cases h
    intro c hc
    exact hc

theorem dataFilterStage_subset (q : List Char) (ctr : List Candidate) :
    ∀ c ∈ dataFilterStage q ctr, c ∈ ctr := by
  intro c hc
  simp only [dataFilterStage] at hc
  split at hc
  · split at hc
    · exact (List.mem_filter.mp hc).1
    · exact hc
  · exact hc

theorem aiFilterStage_subset (q : List Char) (ctr : List Candidate) :
    ∀ c ∈ aiFilterStage q ctr, c ∈ ctr := by
  intro c hc
  simp only [aiFilterStage] at hc
  split at hc
  · split at hc
    · exact (List.mem_filter.mp hc).1
    · exact hc
  · exact hc

/-- C7: on the ranking path (no early exit, definition stage hands a list to
ranking), every candidate of the final ranked list has a query keyword or
semantic similarity at least 0.80: a chunk with zero keyword overlap and
similarity below 0.80 is dropped by `scoreChunk` before any bonus is
computed and never appears in the ranked candidate list. -/
theorem C7_admission (q : List Char) (store : List DocumentVector)
    (ctx : QueryCtx) (v2 vts : List DocumentVector) (cands ctr : List Candidate)
    (c : Candidate)
    (hp : pipelinePrep q store = .inr (ctx, v2, vts, cands))
    (hd : defStage ctx v2 vts cands = .inr ctr)
    (hc : c ∈ rankedAfterFilters q ctr) :
    c.hasQueryKeywords = true ∨ 4/5 ≤ c.semanticSimilarity := by
  unfold rankedAfterFilters rankCandidates at hc
  have h1 := List.mem_mergeSort.mp hc
  have h2 := aiFilterStage_subset q _ c h1
  have h3 := dataFilterStage_subset q _ c h2
  have h4 := defStage_inr_subset ctx v2 vts cands ctr hd c h3
  obtain ⟨hctx, hvts, hcands⟩ := pipelinePrep_inr q store ctx v2 vts cands hp
  rw [hcands] at h4
  unfold buildCandidates at h4
  rcases List.mem_filterMap.mp h4 with ⟨v, hv, hsc⟩
  exact scoreChunk_admitted ctx _ v c hsc

def q7 : List Char := String.toList "Acme workflow tips"

def store7 : List DocumentVector :=
  [mkVec "Acme and Beta compare notes daily." "d.txt" 0 (9/10)]

def ctx7 : QueryCtx := mkQueryCtx q7

def cands7 : List Candidate := buildCandidates ctx7 store7 store7

def c7 : Candidate :=
  ⟨mkVec "Acme and Beta compare notes daily." "d.txt" 0 (9/10),
   9/10, true, 1/3, 1/2, 0, 0, 0, 0, 0, 3/2⟩

/-- Witness for C7 at a concrete ranked candidate. -/
theorem C7_admission_witness :
    c7.hasQueryKeywords = true ∨ 4/5 ≤ c7.semanticSimilarity :=
  C7_admission q7 store7 ctx7 store7 store7 cands7 cands7 c7
    (by with_unfolding_all rfl) (by with_unfolding_all decide)
    (by with_unfolding_all decide)

/- ### C10: hard-coded comparison entities -/

def qC10 : List Char := String.toList "compare systems"

def textC10 : List Char := String.toList "It finds problems while executing tasks."

/-- C10 counterexample: on the comparison query "compare systems", the chunk
"It finds problems while executing tasks." receives the +0.6
explicit-contrast bonus although it mentions neither "celonis" nor
"agentic": several explicit-dual-entity patterns are entity-free phrasing
patterns, so the +0.6 tier is not restricted to the two hard-coded words. -/
theorem C10_counterexample :
    (comparisonScores qC10 false textC10 (1/2)).1 = 3/5 ∧
    containsSub (String.toList "celonis") (lowerStr textC10) = false ∧
    containsSub (String.toList "agentic") (lowerStr textC10) = false := by
  refine ⟨?_, ?_, ?_⟩ <;> with_unfolding_all decide

/-- C10 amended: the hard-coding holds for (1) the TC-5 entity fallback -- on
a comparison query with no extractable entity, a chunk outside any detected
comparison section is kept (classified `some false`) only if it contains the
literal word "celonis" -- and (2) the +0.4 dual-entity bonus tier, which
requires the chunk to mention both literal words "celonis" and "agentic";
the +0.6 explicit-contrast tier, however, can also fire on entity-free
phrasing patterns (see the counterexample). -/
theorem C10_amended :
    (∀ (range : Option (Nat × Nat)) (i : Nat) (v : DocumentVector),
      tc5Classify none range i v = some false →
      reTest (rword "celonis") v.chunk.text = true) ∧
    (∀ (q : List Char) (isDef : Bool) (text : List Char) (pos : ℚ),
      (comparisonScores q isDef text pos).1 = 2/5 →
      reTest (rword "celonis") (lowerStr text) = true ∧
      reTest (rword "agentic") (lowerStr text) = true) := by
  constructor
  · intro range i v h
    unfold tc5Classify at h
    dsimp only at h
    split at h
    · exact Option.noConfusion h
    · split at h
      · exact Option.noConfusion h
      · split at h
        · exact Option.noConfusion h
        · split at h
          · simp at h
          · split at h
            · next hent =>
              exact hent
            · exact Option.noConfusion h
  · intro q isDef text pos h
    unfold comparisonScores at h
    split at h
    · dsimp only at h
      split at h
      · norm_num at h
      · split at h
        · next hcond =>
          have hmb := (Bool.and_eq_true _ _).mp hcond |>.2
          exact (Bool.and_eq_true _ _).mp hmb
        · split at h
          · norm_num at h
          · norm_num at h
    · norm_num at h

def vC10w : DocumentVector := mkVec "Celonis helps teams." "x.txt" 1 0

def textC10w : List Char := String.toList "Celonis is stable, but agentic tools vary."

/-- Witness for C10 amended at concrete inputs: a kept entity-free-fallback
chunk containing "celonis", and a +0.4-tier chunk mentioning both words. -/
theorem C10_amended_witness :
    (tc5Classify none none 1 vC10w = some false ∧
     reTest (rword "celonis") vC10w.chunk.text = true) ∧
    ((comparisonScores qC10 false textC10w (1/2)).1 = 2/5 ∧
     reTest (rword "celonis") (lowerStr textC10w) = true ∧
     reTest (rword "agentic") (lowerStr textC10w) = true) :=
  ⟨⟨by with_unfolding_all decide,
    C10_amended.1 none 1 vC10w (by with_unfolding_all decide)⟩,
   ⟨by with_unfolding_all decide,
    by
      have h := C10_amended.2 qC10 false textC10w (1/2) (by with_unfolding_all decide)
      exact ⟨h.1, h.2⟩⟩⟩
